import Mathlib

/-
  Verification of the ISP-Wellness-Assistant scoring core.

  The TypeScript sources are shallowly embedded:
  * JavaScript numbers are modelled as rationals (all arithmetic in the
    scoring core is addition/multiplication/division of small decimal
    constants, far from any floating-point boundary used in a comparison);
  * JavaScript strings are Lean `String`s, `String.prototype.includes`
    is substring containment, `Array`s and `Map`s are lists
    (a JS `Map` preserves key insertion order; `set` of an existing key
    keeps its position, `set` of a new key appends);
  * the handful of duration/weight regular expressions are evaluated by a
    small backtracking matcher with JavaScript semantics (leftmost start
    position, alternatives in order, greedy quantifiers).
-/

/- Batteries marks the `Rat` arithmetic primitives `@[irreducible]`,
which blocks `decide` from evaluating concrete runs of the embedded
pipeline; restore the default reducibility for this file (the kernel
semantics is unchanged). -/
attribute [local semireducible] Rat.mul Rat.add Rat.sub Rat.inv Rat.ofScientific

namespace ISP

/-- Characters matched by the JavaScript regex class `\s` (ASCII part;
the inputs handled by the app are ASCII). -/
def isJsWs (c : Char) : Bool :=
  c = ' ' || c = '\t' || c = '\n' || c = '\r' || c = '\x0b' || c = '\x0c'

/-- Substring test on character lists: `containsSub l pat` is true iff
`pat` occurs contiguously inside `l`. -/
def containsSub (l pat : List Char) : Bool :=
  pat.isPrefixOf l ||
    (match l with
     | [] => false
     | _ :: rest => containsSub rest pat)

/-- JavaScript `s.includes(pat)`. -/
def jsIncludes (s pat : String) : Bool :=
  containsSub s.data pat.data

/-- JavaScript `s.toLowerCase()` (ASCII). -/
def jsToLower (s : String) : String := ⟨s.data.map Char.toLower⟩

/-- JavaScript `s.trim()`: strip whitespace from both ends. -/
def jsTrim (s : String) : String :=
  ⟨((s.data.dropWhile isJsWs).reverse.dropWhile isJsWs).reverse⟩

/-- JavaScript `s.split(re)` for a single-character-class separator:
the pieces between separator occurrences, empties included. -/
def splitList (p : Char → Bool) : List Char → List (List Char)
  | [] => [[]]
  | c :: rest =>
    if p c then [] :: splitList p rest
    else
      match splitList p rest with
      | [] => [[c]]
      | l :: ls => (c :: l) :: ls

/-- String wrapper for `splitList`. -/
def jsSplit (s : String) (p : Char → Bool) : List String :=
  (splitList p s.data).map (fun l => ⟨l⟩)

/-- JavaScript `arr.join(' ')`. -/
def joinSpace (l : List String) : String := String.intercalate " " l

/-- JavaScript `Math.round` on a rational: round half away from zero is
round half up for the non-negative values that occur here. -/
def jsRound (q : ℚ) : ℤ := ⌊q + 1/2⌋

/-! ### A tiny backtracking regex core

Only what the duration / weight-loss patterns of the app need: literals,
alternation, optional pieces, whitespace quantifiers and one captured
digit group.  A matcher returns the list of possible remainders after
consuming a prefix, in JavaScript preference order (first = preferred:
alternatives in written order, quantifiers greedy). -/

def Matcher := List Char → List (List Char)

/-- Matcher consuming nothing. -/
def mEps : Matcher := fun l => [l]

/-- Matcher for a literal string. -/
def mLit (s : String) : Matcher := fun l =>
  if s.data.isPrefixOf l then [l.drop s.data.length] else []

/-- Sequencing of matchers. -/
def mSeq (m1 m2 : Matcher) : Matcher := fun l => (m1 l).flatMap m2

/-- Alternation, first alternative preferred. -/
def mAlt (ms : List Matcher) : Matcher := fun l => ms.flatMap (fun m => m l)

/-- Optional piece, greedy. -/
def mOpt (m : Matcher) : Matcher := fun l => m l ++ [l]

/-- Remainders after consuming 0..max whitespace characters, longest
consumption first (greedy `\s*`). -/
def wsRemainders : List Char → List (List Char)
  | [] => [[]]
  | c :: rest =>
    if isJsWs c then wsRemainders rest ++ [c :: rest] else [c :: rest]

/-- Greedy `\s*`. -/
def mWs0 : Matcher := wsRemainders

/-- Greedy `\s+` (at least one whitespace character). -/
def mWs1 : Matcher := fun l =>
  match l with
  | c :: rest => if isJsWs c then wsRemainders rest else []
  | [] => []

/-- Numeric value of a digit list. -/
def digitsVal (ds : List Char) : Nat :=
  ds.foldl (fun a c => a * 10 + (c.toNat - 48)) 0

/-- The captured group `(\d+)`, greedy: value and remainder for each
possible (non-empty) digit count, longest first. -/
def mDigits (l : List Char) : List (Nat × List Char) :=
  let ds := l.takeWhile (·.isDigit)
  let rest := l.drop ds.length
  (List.range ds.length).map (fun i =>
    let k := ds.length - i
    (digitsVal (ds.take k), ds.drop k ++ rest))

/-- Try the pattern `pre (\d+) post` anchored at the start of `l`,
returning the captured number of the preferred parse. -/
def matchAt (pre post : Matcher) (l : List Char) : Option Nat :=
  (pre l).findSome? fun rem1 =>
    (mDigits rem1).findSome? fun nr =>
      if (post nr.2).isEmpty then none else some nr.1

/-- JavaScript `text.match(re)` for a pattern `pre (\d+) post`: try every
start position from the left, return the first captured number. -/
def scanMatch (pre post : Matcher) : List Char → Option Nat
  | [] => matchAt pre post []
  | l@(_ :: rest) =>
    match matchAt pre post l with
    | some n => some n
    | none => scanMatch pre post rest

/-- `(?:days?|d)` — written-out alternation of the unit regexes. -/
def mUnitDays : Matcher := mAlt [mSeq (mLit "day") (mOpt (mLit "s")), mLit "d"]

/-- `(?:weeks?|w)` -/
def mUnitWeeks : Matcher := mAlt [mSeq (mLit "week") (mOpt (mLit "s")), mLit "w"]

/-- `(?:months?|mo)` -/
def mUnitMonths : Matcher := mAlt [mSeq (mLit "month") (mOpt (mLit "s")), mLit "mo"]

/-- `(?:years?|y)` -/
def mUnitYears : Matcher := mAlt [mSeq (mLit "year") (mOpt (mLit "s")), mLit "y"]

/-- `(?:for|since|over|last)\s+` -/
def mForSinceOverLast : Matcher :=
  mSeq (mAlt [mLit "for", mLit "since", mLit "over", mLit "last"]) mWs1

/-! ### JavaScript truthiness helpers for `number | undefined` values -/

/-- Truthiness of a JS `number | undefined`: `undefined` and `0` are falsy. -/
def durTruthy (d : Option Nat) : Bool :=
  match d with
  | some n => n != 0
  | none => false

/-- JS `d || k` for a `number | undefined` value. -/
def durOrElse (d : Option Nat) (k : Nat) : Option Nat :=
  if durTruthy d then d else some k

/-- JS `d && d > k` (false when `d` is falsy). -/
def durGt (d : Option Nat) (k : Nat) : Bool :=
  match d with
  | some n => n != 0 && decide (k < n)
  | none => false

/-- JS `d && d <= k` (false when `d` is falsy). -/
def durLe (d : Option Nat) (k : Nat) : Bool :=
  match d with
  | some n => n != 0 && decide (n ≤ k)
  | none => false

/-- Plain numeric value of a `number | undefined` (used only under a
truthiness guard, where `none` cannot occur). -/
def durVal (d : Option Nat) : Nat := d.getD 0

end ISP

namespace ISP.TimeInference
/-! Embedding of `src/client/timeInference.ts`. -/

/-- The duration regexes of `extractDurationFromText`, in source order,
each as `pre`-matcher, `post`-matcher (what follows the digit group) and
day multiplier. -/
def durationPatterns : List (Matcher × Matcher × Nat) :=
  [ (mEps, mSeq mWs0 mUnitDays, 1),
    (mEps, mSeq mWs0 mUnitWeeks, 7),
    (mEps, mSeq mWs0 mUnitMonths, 30),
    (mEps, mSeq mWs0 mUnitYears, 365),
    (mForSinceOverLast, mSeq mWs0 mUnitDays, 1),
    (mForSinceOverLast, mSeq mWs0 mUnitWeeks, 7),
    (mForSinceOverLast, mSeq mWs0 mUnitMonths, 30) ]

/-- `extractDurationFromText`: first pattern (in order) with a match
anywhere in the text yields `parseInt(match[1]) * multiplier`. -/
def extractDurationFromText (text : String) : Option Nat :=
  durationPatterns.findSome? fun pm =>
    (scanMatch pm.1 pm.2.1 text.data).map (· * pm.2.2)

/-- Result record of `inferTimeCourse`. -/
structure TimeCourseResult where
  duration_days : Option Nat
  pattern : String
  interpretation : String
  derived : Bool
deriving DecidableEq, Repr

/-- Fixed interpretation template: weight-loss rule. -/
def interpWeightLoss : String :=
  "Weight loss patterns typically develop over weeks to months, suggesting a chronic process."

/-- Fixed interpretation template: cardiac-progression rule. -/
def interpCardiac : String :=
  "Cardiac symptoms with progression suggest a chronic progressive pattern."

/-- Fixed interpretation template: tremor/anxiety rule. -/
def interpTremor : String :=
  "Tremor with anxiety-like symptoms suggests a chronic endocrine or metabolic condition."

/-- Fixed interpretation template: neurological rule. -/
def interpNeuro : String :=
  "Neurological symptoms suggest a chronic or progressive pattern."

/-- Fixed interpretation template: default inference / final fallback. -/
def interpDefault : String :=
  "Symptom pattern suggests a chronic condition. More specific timing information would improve accuracy."

/-- Duration-bucket template, over 3 months. -/
def bucketOver90 : String :=
  "Symptoms have been present for over 3 months, suggesting a chronic condition."

/-- Duration-bucket template, over 3 weeks. -/
def bucketOver21 : String :=
  "Symptoms lasting over 3 weeks suggest a chronic rather than acute condition."

/-- Duration-bucket template, over 2 weeks. -/
def bucketOver14 : String :=
  "Symptoms lasting over 2 weeks suggest a chronic condition rather than an acute illness."

/-- Duration-bucket template, recent onset. -/
def bucketRecent : String :=
  "Recent onset (within 2 weeks) may indicate an acute condition."

/-- Pattern suffix appended for a relapsing pattern. -/
def suffixRelapsing : String :=
  " Relapsing pattern suggests an autoimmune or episodic condition."

/-- Pattern suffix appended for a progressive pattern. -/
def suffixProgressive : String :=
  " Progressive pattern suggests a neurologic or degenerative condition."

/-- Pattern suffix appended for a chronic pattern. -/
def suffixChronic : String :=
  " Chronic pattern suggests a long-standing condition."

/-- Explicit-pattern extraction step of `inferTimeCourse` (the first
if/else-if chain over the combined lowercase text). -/
def explicitPattern (text : String) (duration : Option Nat) : String :=
  if jsIncludes text "relapsing" || jsIncludes text "comes and goes" ||
     jsIncludes text "waxing" || jsIncludes text "waning" ||
     jsIncludes text "on and off" || jsIncludes text "episodic" then "relapsing"
  else if jsIncludes text "progressive" || jsIncludes text "getting worse" ||
          jsIncludes text "worsening" || jsIncludes text "gradually worse" then "progressive"
  else if jsIncludes text "chronic" || jsIncludes text "long-term" ||
          jsIncludes text "persistent" || durGt duration 90 then "chronic"
  else if jsIncludes text "sudden" || jsIncludes text "acute" ||
          durLe duration 14 then "acute"
  else "unknown"

/-- State after the deterministic-inference block of `inferTimeCourse`:
duration, pattern, derived flag and the interpretation set so far
(empty string when not yet set, as in the source). -/
def inferenceStep (text symptomsLower : String) (duration : Option Nat)
    (pattern : String) : Option Nat × String × Bool × String :=
  if pattern == "unknown" || !durTruthy duration then
    if jsIncludes symptomsLower "weight loss" then
      (durOrElse duration 21, "chronic", true, interpWeightLoss)
    else if (jsIncludes symptomsLower "palpitation" || jsIncludes symptomsLower "heart") &&
            (jsIncludes text "worse" || jsIncludes text "increase" || jsIncludes text "frequent") then
      (durOrElse duration 30, "progressive", true, interpCardiac)
    else if (jsIncludes symptomsLower "tremor" || jsIncludes symptomsLower "shaking") &&
            (jsIncludes symptomsLower "anxiety" || jsIncludes symptomsLower "nervous") then
      (durOrElse duration 60, "chronic", true, interpTremor)
    else if jsIncludes symptomsLower "numbness" || jsIncludes symptomsLower "tingling" ||
            jsIncludes symptomsLower "weakness" || jsIncludes symptomsLower "vision problem" then
      (durOrElse duration 45,
       if jsIncludes text "worse" || jsIncludes text "progress" then "progressive" else "chronic",
       true, interpNeuro)
    else if !durTruthy duration then
      (some 30, "chronic", true, interpDefault)
    else
      (duration, pattern, true, "")
  else
    (duration, pattern, false, "")

/-- The "build interpretation if not set" block plus the final non-empty
safety net of `inferTimeCourse`. -/
def buildInterpretation (duration : Option Nat) (pattern interp : String) : String :=
  let built :=
    if interp == "" then
      let base :=
        if durTruthy duration then
          if durVal duration > 90 then bucketOver90
          else if durVal duration > 21 then bucketOver21
          else if durVal duration > 14 then bucketOver14
          else bucketRecent
        else ""
      let suffix :=
        if pattern == "relapsing" then suffixRelapsing
        else if pattern == "progressive" then suffixProgressive
        else if pattern == "chronic" then suffixChronic
        else ""
      base ++ suffix
    else interp
  if built == "" then interpDefault else built

/-- `inferTimeCourse(symptoms, answers)`. -/
def inferTimeCourse (symptoms answers : List String) : TimeCourseResult :=
  let text := jsToLower (joinSpace symptoms ++ " " ++ joinSpace answers)
  let symptomsLower := jsToLower (joinSpace symptoms)
  let duration0 := extractDurationFromText text
  let pattern0 := explicitPattern text duration0
  let st := inferenceStep text symptomsLower duration0 pattern0
  { duration_days := st.1
    pattern := st.2.1
    interpretation := buildInterpretation st.1 st.2.1 st.2.2.2
    derived := st.2.2.1 }

end ISP.TimeInference

namespace ISP.Medical
/-! Embedding of `src/ai/medical-data/symptom-weights.ts` and
`src/ai/medical-data/disease-database.ts`. -/

/-- `SymptomWeight` record. -/
structure SymptomWeight where
  severity_weight : ℚ
  specificity_weight : ℚ
deriving DecidableEq, Repr

/-- The `SYMPTOM_WEIGHTS` table, in declaration order. -/
def SYMPTOM_WEIGHTS : List (String × SymptomWeight) :=
  [ ("fever", ⟨0.7, 0.3⟩),
    ("headache", ⟨0.5, 0.2⟩),
    ("fatigue", ⟨0.6, 0.2⟩),
    ("weakness", ⟨0.7, 0.3⟩),
    ("pain", ⟨0.6, 0.2⟩),
    ("joint pain", ⟨0.6, 0.4⟩),
    ("muscle pain", ⟨0.5, 0.3⟩),
    ("chest pain", ⟨0.8, 0.4⟩),
    ("abdominal pain", ⟨0.7, 0.3⟩),
    ("back pain", ⟨0.6, 0.2⟩),
    ("dizziness", ⟨0.6, 0.3⟩),
    ("vertigo", ⟨0.7, 0.5⟩),
    ("numbness", ⟨0.7, 0.5⟩),
    ("tingling", ⟨0.6, 0.4⟩),
    ("vision problems", ⟨0.8, 0.6⟩),
    ("blurred vision", ⟨0.7, 0.5⟩),
    ("double vision", ⟨0.8, 0.7⟩),
    ("memory problems", ⟨0.7, 0.4⟩),
    ("confusion", ⟨0.8, 0.5⟩),
    ("seizures", ⟨0.9, 0.7⟩),
    ("weight loss", ⟨0.8, 0.6⟩),
    ("night sweats", ⟨0.7, 0.7⟩),
    ("swollen glands", ⟨0.6, 0.5⟩),
    ("rash", ⟨0.6, 0.4⟩),
    ("skin changes", ⟨0.5, 0.4⟩),
    ("cough", ⟨0.5, 0.2⟩),
    ("shortness of breath", ⟨0.8, 0.4⟩),
    ("difficulty breathing", ⟨0.9, 0.5⟩),
    ("nausea", ⟨0.5, 0.2⟩),
    ("vomiting", ⟨0.6, 0.3⟩),
    ("diarrhea", ⟨0.5, 0.2⟩),
    ("constipation", ⟨0.4, 0.2⟩),
    ("orthostatic dizziness", ⟨0.7, 0.8⟩),
    ("migratory joint pain", ⟨0.7, 0.7⟩),
    ("transient rash", ⟨0.6, 0.6⟩),
    ("dry eyes", ⟨0.4, 0.5⟩),
    ("dry mouth", ⟨0.4, 0.5⟩) ]

/-- `getSymptomScore` (server variant): exact key first (a present record
value is an object, hence truthy), then the first key in declaration
order related to the token by substring containment either way, then the
default `0.5 * 0.3`. -/
def getSymptomScore (symptom : String) : ℚ :=
  let normalized := jsTrim (jsToLower symptom)
  match SYMPTOM_WEIGHTS.lookup normalized with
  | some w => w.severity_weight * w.specificity_weight
  | none =>
    match SYMPTOM_WEIGHTS.find?
        (fun e => jsIncludes normalized e.1 || jsIncludes e.1 normalized) with
    | some e => e.2.severity_weight * e.2.specificity_weight
    | none => 0.5 * 0.3

/-- `DiseaseData` record. -/
structure DiseaseData where
  name : String
  cluster : List String
  symptom_relevance_map : List (String × ℚ)
  description : String
  webmd_search_term : String
deriving DecidableEq, Repr

/-- The `DISEASE_DATABASE` table, in declaration order. -/
def DISEASE_DATABASE : List DiseaseData :=
  [ { name := "Systemic Lupus Erythematosus (SLE)"
      cluster := ["autoimmune"]
      symptom_relevance_map :=
        [("fever", 0.7), ("fatigue", 0.8), ("joint pain", 0.8), ("rash", 0.7),
         ("chest pain", 0.6), ("hair loss", 0.6), ("mouth sores", 0.5)]
      description := "Autoimmune disease causing inflammation throughout the body, often with joint pain, skin rashes, and fatigue."
      webmd_search_term := "lupus" },
    { name := "Rheumatoid Arthritis"
      cluster := ["autoimmune"]
      symptom_relevance_map :=
        [("joint pain", 0.9), ("morning stiffness", 0.8), ("fatigue", 0.7),
         ("swollen joints", 0.9), ("fever", 0.4)]
      description := "Chronic autoimmune condition causing joint inflammation, pain, and stiffness, especially in the morning."
      webmd_search_term := "rheumatoid arthritis" },
    { name := "Adult-Onset Still\x27s Disease (AOSD)"
      cluster := ["autoimmune"]
      symptom_relevance_map :=
        [("fever", 0.9), ("joint pain", 0.8), ("rash", 0.7), ("sore throat", 0.6),
         ("fatigue", 0.8), ("muscle pain", 0.7), ("migratory joint pain", 0.8),
         ("transient rash", 0.7)]
      description := "Rare inflammatory condition with high fevers, joint pain, and a characteristic salmon-colored rash."
      webmd_search_term := "adult still disease" },
    { name := "Sjögren\x27s Syndrome"
      cluster := ["autoimmune"]
      symptom_relevance_map :=
        [("dry eyes", 0.9), ("dry mouth", 0.9), ("fatigue", 0.7), ("joint pain", 0.6),
         ("numbness", 0.5), ("vision problems", 0.6)]
      description := "Autoimmune disorder causing dry eyes and mouth, often with fatigue and joint pain."
      webmd_search_term := "sjogren syndrome" },
    { name := "Systemic Vasculitis"
      cluster := ["autoimmune"]
      symptom_relevance_map :=
        [("fever", 0.7), ("fatigue", 0.7), ("joint pain", 0.6), ("rash", 0.7),
         ("weight loss", 0.6), ("night sweats", 0.5), ("numbness", 0.5)]
      description := "Inflammation of blood vessels causing various symptoms depending on affected organs."
      webmd_search_term := "vasculitis" },
    { name := "Sarcoidosis"
      cluster := ["autoimmune"]
      symptom_relevance_map :=
        [("shortness of breath", 0.7), ("cough", 0.6), ("fatigue", 0.7),
         ("swollen glands", 0.6), ("rash", 0.5), ("joint pain", 0.5),
         ("vision problems", 0.4)]
      description := "Inflammatory disease causing small clusters of inflammatory cells in various organs."
      webmd_search_term := "sarcoidosis" },
    { name := "Multiple Sclerosis (MS)"
      cluster := ["neurologic"]
      symptom_relevance_map :=
        [("numbness", 0.8), ("tingling", 0.8), ("vision problems", 0.8),
         ("blurred vision", 0.7), ("double vision", 0.7), ("weakness", 0.7),
         ("dizziness", 0.6), ("fatigue", 0.7), ("balance problems", 0.7)]
      description := "Autoimmune disease affecting the central nervous system, causing various neurological symptoms."
      webmd_search_term := "multiple sclerosis" },
    { name := "Guillain-Barré Syndrome (GBS)"
      cluster := ["neurologic", "infectious"]
      symptom_relevance_map :=
        [("weakness", 0.9), ("numbness", 0.8), ("tingling", 0.8),
         ("difficulty breathing", 0.7), ("pain", 0.6)]
      description := "Rare autoimmune disorder causing rapid-onset muscle weakness, often after an infection."
      webmd_search_term := "guillain barre syndrome" },
    { name := "Adrenal Insufficiency"
      cluster := ["endocrine"]
      symptom_relevance_map :=
        [("fatigue", 0.8), ("weakness", 0.7), ("weight loss", 0.6), ("dizziness", 0.7),
         ("orthostatic dizziness", 0.8), ("nausea", 0.5), ("abdominal pain", 0.5)]
      description := "Condition where adrenal glands don\x27t produce enough hormones, causing fatigue and weakness."
      webmd_search_term := "adrenal insufficiency" },
    { name := "Hyperthyroidism"
      cluster := ["endocrine"]
      symptom_relevance_map :=
        [("weight loss", 0.7), ("fatigue", 0.6), ("anxiety", 0.6), ("sweating", 0.6),
         ("heart palpitations", 0.7)]
      description := "Overactive thyroid gland causing increased metabolism, weight loss, and anxiety."
      webmd_search_term := "hyperthyroidism" },
    { name := "Hypothyroidism"
      cluster := ["endocrine"]
      symptom_relevance_map :=
        [("fatigue", 0.8), ("weight gain", 0.7), ("weakness", 0.6), ("depression", 0.6),
         ("cold intolerance", 0.6)]
      description := "Underactive thyroid gland causing fatigue, weight gain, and slowed metabolism."
      webmd_search_term := "hypothyroidism" },
    { name := "Pheochromocytoma"
      cluster := ["endocrine"]
      symptom_relevance_map :=
        [("heart palpitations", 0.9), ("sweating", 0.8), ("anxiety", 0.7),
         ("tremor", 0.7), ("headache", 0.6), ("high blood pressure", 0.8)]
      description := "Rare tumor of adrenal glands causing episodic high blood pressure, palpitations, and sweating."
      webmd_search_term := "pheochromocytoma" },
    { name := "Diabetes Mellitus Type 2"
      cluster := ["endocrine", "metabolic/nutritional"]
      symptom_relevance_map :=
        [("weight loss", 0.7), ("fatigue", 0.7), ("frequent urination", 0.9),
         ("excessive thirst", 0.9), ("blurred vision", 0.6)]
      description := "Metabolic disorder causing high blood sugar, often with increased urination, thirst, and weight loss."
      webmd_search_term := "diabetes type 2" },
    { name := "Hyperparathyroidism"
      cluster := ["endocrine"]
      symptom_relevance_map :=
        [("fatigue", 0.7), ("weakness", 0.6), ("depression", 0.5), ("bone pain", 0.6),
         ("kidney stones", 0.7)]
      description := "Overactive parathyroid glands causing high calcium levels, fatigue, and weakness."
      webmd_search_term := "hyperparathyroidism" },
    { name := "Graves\x27 Disease"
      cluster := ["endocrine"]
      symptom_relevance_map :=
        [("weight loss", 0.8), ("heart palpitations", 0.9), ("anxiety", 0.8),
         ("tremor", 0.8), ("heat intolerance", 0.8), ("sweating", 0.7),
         ("fatigue", 0.6)]
      description := "Autoimmune cause of hyperthyroidism with weight loss, rapid heartbeat, and anxiety."
      webmd_search_term := "graves disease" },
    { name := "POTS (Postural Orthostatic Tachycardia Syndrome)"
      cluster := ["autonomic dysfunction"]
      symptom_relevance_map :=
        [("dizziness", 0.8), ("orthostatic dizziness", 0.9), ("fatigue", 0.7),
         ("heart palpitations", 0.7), ("numbness", 0.5), ("brain fog", 0.6)]
      description := "Condition causing rapid heart rate and dizziness when standing, often with fatigue."
      webmd_search_term := "pots syndrome" },
    { name := "Autonomic Dysfunction"
      cluster := ["autonomic dysfunction"]
      symptom_relevance_map :=
        [("orthostatic dizziness", 0.8), ("dizziness", 0.7), ("numbness", 0.6),
         ("fatigue", 0.6), ("heart palpitations", 0.6)]
      description := "Dysfunction of the autonomic nervous system affecting heart rate, blood pressure, and other automatic functions."
      webmd_search_term := "autonomic dysfunction" },
    { name := "Lymphoma"
      cluster := ["malignancy/hematologic"]
      symptom_relevance_map :=
        [("swollen glands", 0.8), ("weight loss", 0.8), ("night sweats", 0.8),
         ("fever", 0.7), ("fatigue", 0.7), ("itching", 0.5)]
      description := "Cancer of the lymphatic system, often presenting with swollen lymph nodes, weight loss, and night sweats."
      webmd_search_term := "lymphoma" },
    { name := "Chronic EBV Infection"
      cluster := ["infectious"]
      symptom_relevance_map :=
        [("fatigue", 0.8), ("fever", 0.6), ("swollen glands", 0.7), ("sore throat", 0.6),
         ("night sweats", 0.5)]
      description := "Persistent Epstein-Barr virus infection causing chronic fatigue and other symptoms."
      webmd_search_term := "epstein barr virus" },
    { name := "Chronic CMV Infection"
      cluster := ["infectious"]
      symptom_relevance_map :=
        [("fatigue", 0.7), ("fever", 0.6), ("swollen glands", 0.6), ("night sweats", 0.5)]
      description := "Persistent cytomegalovirus infection causing fatigue and flu-like symptoms."
      webmd_search_term := "cmv infection" },
    { name := "Tuberculosis (TB)"
      cluster := ["infectious"]
      symptom_relevance_map :=
        [("cough", 0.8), ("weight loss", 0.7), ("night sweats", 0.8), ("fever", 0.7),
         ("fatigue", 0.7), ("chest pain", 0.6)]
      description := "Bacterial infection primarily affecting the lungs, causing persistent cough, weight loss, and night sweats."
      webmd_search_term := "tuberculosis" },
    { name := "Vitamin B12 Deficiency"
      cluster := ["metabolic/nutritional"]
      symptom_relevance_map :=
        [("fatigue", 0.7), ("weakness", 0.6), ("numbness", 0.7), ("tingling", 0.7),
         ("memory problems", 0.5)]
      description := "Deficiency causing fatigue, neurological symptoms, and anemia."
      webmd_search_term := "b12 deficiency" },
    { name := "Iron Deficiency Anemia"
      cluster := ["metabolic/nutritional"]
      symptom_relevance_map :=
        [("fatigue", 0.8), ("weakness", 0.7), ("shortness of breath", 0.6),
         ("dizziness", 0.6)]
      description := "Low iron levels causing fatigue, weakness, and shortness of breath."
      webmd_search_term := "iron deficiency anemia" },
  ]

/-- The scan step of `getDiseaseRelevanceFactor`: first key in map
declaration order related to the token by substring containment either
way, else 0. -/
def relevancePartial (m : List (String × ℚ)) (normalized : String) : ℚ :=
  match m.find? (fun e => jsIncludes normalized e.1 || jsIncludes e.1 normalized) with
  | some e => e.2
  | none => 0

/-- `getDiseaseRelevanceFactor`.  The exact-match test in the source is
`if (disease.symptom_relevance_map[normalized])`, a JS truthiness test on
a number, so a stored relevance of `0` would fall through to the scan. -/
def getDiseaseRelevanceFactor (diseaseName symptom : String) : ℚ :=
  match DISEASE_DATABASE.find? (fun d => d.name == diseaseName) with
  | none => 0
  | some disease =>
    let normalized := jsTrim (jsToLower symptom)
    match disease.symptom_relevance_map.lookup normalized with
    | some v => if v != 0 then v else relevancePartial disease.symptom_relevance_map normalized
    | none => relevancePartial disease.symptom_relevance_map normalized

/-- The lookup rule as the specification words it: try an exact key
match on the normalized token; if absent, take the value of the first
key in table declaration order such that the key is a substring of the
token or the token is a substring of the key. -/
def specLookup {α : Type} (table : List (String × α)) (token : String) : Option α :=
  match table.lookup token with
  | some v => some v
  | none =>
    (table.find? (fun e => jsIncludes token e.1 || jsIncludes e.1 token)).map (·.2)

/-- Specification-side symptom score: the spec lookup rule over
`SYMPTOM_WEIGHTS`, with the `(0.5, 0.3)` default for a token matching no
key at all. -/
def getSymptomScoreSpec (symptom : String) : ℚ :=
  match specLookup SYMPTOM_WEIGHTS (jsTrim (jsToLower symptom)) with
  | some w => w.severity_weight * w.specificity_weight
  | none => 0.5 * 0.3

/-- Specification-side disease relevance: the spec lookup rule over the
disease's relevance map, defaulting to 0. -/
def getDiseaseRelevanceFactorSpec (diseaseName symptom : String) : ℚ :=
  match DISEASE_DATABASE.find? (fun d => d.name == diseaseName) with
  | none => 0
  | some disease =>
    (specLookup disease.symptom_relevance_map (jsTrim (jsToLower symptom))).getD 0

end ISP.Medical

namespace ISP

/-- User profile as passed to the server flows (only `age` is ever read,
through `parseInt`). -/
structure Profile where
  age : Option String := none
  gender : Option String := none
deriving DecidableEq, Repr

/-- JS `parseInt` on a simple decimal string: leading whitespace skipped,
then a non-empty digit run, else NaN (modelled as `none`). -/
def jsParseInt (s : String) : Option Nat :=
  let l := s.data.dropWhile isJsWs
  let ds := l.takeWhile (·.isDigit)
  if ds.isEmpty then none else some (digitsVal ds)

end ISP

namespace ISP.MultiSystem
/-! Embedding of `multi-system-reasoning.ts` (body systems kept as plain
strings: the table also stores `"infectious"`, which is outside the
declared `BodySystem` union but present at runtime). -/

/-- `SYMPTOM_SYSTEM_MAP`.  The source object literal repeats the keys
`heart palpitations`, `shortness of breath`, `weakness`, `fatigue`:
per JS object-literal semantics the last value wins while the key keeps
its first position, which is what this list records. -/
def SYMPTOM_SYSTEM_MAP : List (String × List String) :=
  [ ("weight loss", ["endocrine/metabolic"]),
    ("weight gain", ["endocrine/metabolic"]),
    ("heat intolerance", ["endocrine/metabolic"]),
    ("cold intolerance", ["endocrine/metabolic"]),
    ("sweating", ["endocrine/metabolic"]),
    ("excessive thirst", ["endocrine/metabolic"]),
    ("frequent urination", ["endocrine/metabolic"]),
    ("tremor", ["endocrine/metabolic", "neurological"]),
    ("heart palpitations", ["autonomic", "cardiac"]),
    ("chest pain", ["cardiac"]),
    ("shortness of breath", ["respiratory", "cardiac"]),
    ("difficulty breathing", ["cardiac", "respiratory"]),
    ("numbness", ["neurological"]),
    ("tingling", ["neurological"]),
    ("weakness", ["hematologic", "neurological"]),
    ("vision problems", ["neurological"]),
    ("blurred vision", ["neurological"]),
    ("double vision", ["neurological"]),
    ("memory problems", ["neurological"]),
    ("confusion", ["neurological"]),
    ("seizures", ["neurological"]),
    ("balance problems", ["neurological"]),
    ("orthostatic dizziness", ["autonomic"]),
    ("dizziness", ["autonomic", "neurological"]),
    ("brain fog", ["autonomic"]),
    ("nausea", ["gastrointestinal"]),
    ("vomiting", ["gastrointestinal"]),
    ("diarrhea", ["gastrointestinal"]),
    ("constipation", ["gastrointestinal"]),
    ("abdominal pain", ["gastrointestinal"]),
    ("fatigue", ["autoimmune", "hematologic"]),
    ("swollen glands", ["hematologic", "infectious"]),
    ("joint pain", ["autoimmune"]),
    ("rash", ["autoimmune"]),
    ("fever", ["autoimmune", "infectious"]),
    ("cough", ["respiratory"]) ]

/-- `SystemInvolvement` record. -/
structure SystemInvolvement where
  system : String
  symptoms : List String
  score : ℚ
deriving DecidableEq, Repr

/-- Append `symptom` to the bucket of `sys` in an insertion-ordered
association list (JS `Map` semantics). -/
def addToSystem (m : List (String × List String)) (sys symptom : String) :
    List (String × List String) :=
  if m.any (·.1 == sys) then
    m.map (fun e => if e.1 == sys then (e.1, e.2 ++ [symptom]) else e)
  else
    m ++ [(sys, [symptom])]

/-- `analyzeSystemInvolvement`: exact-key lookup only (no partial
matching here), unknown symptoms default to `endocrine/metabolic`; the
score expression divides the per-system symptom list length by itself
(the source shadows the outer `symptoms`), so every score is 1; the
descending stable sort therefore keeps insertion order. -/
def analyzeSystemInvolvement (symptoms : List String) : List SystemInvolvement :=
  let systemMap := symptoms.foldl
    (fun m symptom =>
      let normalized := jsTrim (jsToLower symptom)
      let systems := (SYMPTOM_SYSTEM_MAP.lookup normalized).getD ["endocrine/metabolic"]
      systems.foldl (fun m sys => addToSystem m sys symptom) m)
    []
  systemMap.map (fun e =>
    { system := e.1, symptoms := e.2,
      score := (e.2.length : ℚ) / (e.2.length : ℚ) })

/-- The condition→systems table inside `getConditionSystems`. -/
def conditionSystemMap : List (String × List String) :=
  [ ("Hyperthyroidism", ["endocrine/metabolic", "cardiac", "autonomic"]),
    ("Graves\x27 Disease", ["endocrine/metabolic", "cardiac", "autonomic"]),
    ("Pheochromocytoma", ["endocrine/metabolic", "cardiac", "autonomic"]),
    ("Diabetes Mellitus", ["endocrine/metabolic", "cardiac"]),
    ("POTS", ["autonomic", "cardiac", "neurological"]),
    ("Multiple Sclerosis", ["neurological", "autonomic"]),
    ("Lupus", ["autoimmune", "cardiac", "hematologic"]),
    ("Lymphoma", ["hematologic", "autoimmune"]) ]

/-- `getConditionSystems`: first table key contained in the condition
name; default `endocrine/metabolic`. -/
def getConditionSystems (conditionName : String) : List String :=
  match conditionSystemMap.find? (fun e => jsIncludes conditionName e.1) with
  | some e => e.2
  | none => ["endocrine/metabolic"]

/-- `calculateMultiSystemOverlap`. -/
def calculateMultiSystemOverlap (conditionSystems : List String)
    (involvedSystems : List SystemInvolvement) : ℚ :=
  let involvedSystemNames := involvedSystems.map (·.system)
  let overlap := (conditionSystems.filter (fun s => involvedSystemNames.contains s)).length
  let totalSystems := max conditionSystems.length involvedSystems.length
  (overlap : ℚ) / (totalSystems : ℚ)

end ISP.MultiSystem

namespace ISP.TimeCourseLogic
/-! Embedding of `time-course-logic.ts` (bundled in the snapshot next to
`ai-instance.ts`). -/

/-- `TimeCourseData` (with the `derived` flag `extractTimeCourseData`
adds). -/
structure TimeCourseData where
  duration_days : Option Nat
  pattern : String
  derived : Bool
deriving DecidableEq, Repr

/-- `DiseaseScoreAdjustment` record. -/
structure DiseaseScoreAdjustment where
  diseaseName : String
  multiplier : ℚ
  reason : String
deriving DecidableEq, Repr

/-- Acute-disease list of `applyTimeCourseLogic`. -/
def acuteDiseases : List String :=
  ["Guillain-Barré Syndrome (GBS)", "Acute Infection"]

/-- Chronic-disease list of `applyTimeCourseLogic`. -/
def chronicDiseases : List String :=
  [ "Systemic Lupus Erythematosus (SLE)", "Rheumatoid Arthritis",
    "Adult-Onset Still\x27s Disease (AOSD)", "Sjögren\x27s Syndrome",
    "Systemic Vasculitis", "Sarcoidosis", "Multiple Sclerosis (MS)",
    "Chronic EBV Infection", "Chronic CMV Infection", "Tuberculosis (TB)",
    "Lymphoma" ]

/-- Autoimmune-disease list of `applyTimeCourseLogic`. -/
def autoimmuneDiseases : List String :=
  [ "Systemic Lupus Erythematosus (SLE)", "Rheumatoid Arthritis",
    "Adult-Onset Still\x27s Disease (AOSD)", "Sjögren\x27s Syndrome",
    "Systemic Vasculitis", "Sarcoidosis", "Multiple Sclerosis (MS)" ]

/-- Neurologic-disease list of `applyTimeCourseLogic`. -/
def neurologicDiseases : List String :=
  ["Multiple Sclerosis (MS)", "Guillain-Barré Syndrome (GBS)"]

/-- `applyTimeCourseLogic`: per disease name, a multiplier accumulated
multiplicatively from the duration and pattern rules, reported only when
it differs from 1. -/
def applyTimeCourseLogic (timeCourse : TimeCourseData) (diseaseNames : List String) :
    List DiseaseScoreAdjustment :=
  let duration := if durTruthy timeCourse.duration_days then durVal timeCourse.duration_days else 0
  let pattern := if timeCourse.pattern == "" then "unknown" else timeCourse.pattern
  diseaseNames.foldl
    (fun adjustments diseaseName =>
      let st : ℚ × List String := (1, [])
      let st :=
        if duration > 14 then
          let st := if acuteDiseases.any (fun d => jsIncludes diseaseName d) then
              (st.1 * 0.5, st.2 ++ ["symptoms too long for acute condition"]) else st
          if chronicDiseases.any (fun d => jsIncludes diseaseName d) then
            (st.1 * 1.3, st.2 ++ ["symptoms duration suggests chronic condition"]) else st
        else if duration > 0 && duration ≤ 14 then
          if acuteDiseases.any (fun d => jsIncludes diseaseName d) then
            (st.1 * 1.2, st.2 ++ ["symptoms duration suggests acute condition"]) else st
        else st
      let st :=
        if pattern == "relapsing" || pattern == "waxing" || pattern == "waning" then
          if autoimmuneDiseases.any (fun d => jsIncludes diseaseName d) then
            (st.1 * 1.4, st.2 ++ ["relapsing pattern suggests autoimmune condition"]) else st
        else st
      let st :=
        if pattern == "progressive" then
          if neurologicDiseases.any (fun d => jsIncludes diseaseName d) then
            (st.1 * 1.3, st.2 ++ ["progressive pattern suggests neurologic condition"]) else st
        else st
      if st.1 != 1 then
        adjustments ++ [{ diseaseName := diseaseName, multiplier := st.1,
                          reason := String.intercalate "; " st.2 }]
      else adjustments)
    []

/-- The duration regexes of `extractTimeCourseData` (the server list has
an eighth entry, `for/since/over/last … years`). -/
def durationPatterns : List (Matcher × Matcher × Nat) :=
  [ (mEps, mSeq mWs0 mUnitDays, 1),
    (mEps, mSeq mWs0 mUnitWeeks, 7),
    (mEps, mSeq mWs0 mUnitMonths, 30),
    (mEps, mSeq mWs0 mUnitYears, 365),
    (mForSinceOverLast, mSeq mWs0 mUnitDays, 1),
    (mForSinceOverLast, mSeq mWs0 mUnitWeeks, 7),
    (mForSinceOverLast, mSeq mWs0 mUnitMonths, 30),
    (mForSinceOverLast, mSeq mWs0 mUnitYears, 365) ]

/-- `extractTimeCourseData(symptoms, answers)`; the inference rules are
sequential `if`s (not `else if`), so later rules can override earlier
ones. -/
def extractTimeCourseData (symptoms : String) (answers : List String) : TimeCourseData :=
  let text := jsToLower (symptoms ++ " " ++ joinSpace answers)
  let symptomsLower := jsToLower symptoms
  let duration0 := durationPatterns.findSome? fun pm =>
    (scanMatch pm.1 pm.2.1 text.data).map (· * pm.2.2)
  let pattern0 := ISP.TimeInference.explicitPattern text duration0
  if pattern0 == "unknown" then
    let st : Option Nat × String × Bool := (duration0, pattern0, false)
    let st :=
      if jsIncludes symptomsLower "weight loss" && !durTruthy st.1 then
        (some 21, "chronic", true) else st
    let st :=
      if (jsIncludes symptomsLower "palpitation" || jsIncludes symptomsLower "heart") &&
         (jsIncludes text "worse" || jsIncludes text "increase" || jsIncludes text "frequent") then
        (if durTruthy st.1 then st.1 else some 30, "progressive", true) else st
    let st :=
      if (jsIncludes symptomsLower "tremor" || jsIncludes symptomsLower "shaking") &&
         (jsIncludes symptomsLower "anxiety" || jsIncludes symptomsLower "nervous" ||
          jsIncludes symptomsLower "panic") then
        (if durTruthy st.1 then st.1 else some 60, "chronic", true) else st
    let st :=
      if jsIncludes symptomsLower "numbness" || jsIncludes symptomsLower "tingling" ||
         jsIncludes symptomsLower "weakness" || jsIncludes symptomsLower "vision problem" then
        (if durTruthy st.1 then st.1 else some 45,
         if jsIncludes text "worse" || jsIncludes text "progress" then "progressive" else "chronic",
         true) else st
    let st :=
      if st.2.1 == "unknown" && durTruthy st.1 then
        (st.1,
         if durVal st.1 > 90 then "chronic"
         else if durVal st.1 > 21 then "chronic"
         else if durVal st.1 > 14 then "chronic"
         else "acute",
         true) else st
    { duration_days := st.1, pattern := st.2.1, derived := st.2.2 }
  else
    { duration_days := duration0, pattern := pattern0, derived := false }

end ISP.TimeCourseLogic

namespace ISP.RedFlags
/-! Embedding of `red-flag-detection.ts`. -/

/-- `RedFlag` record. -/
structure RedFlag where
  name : String
  detected : Bool
  severity : ℚ
deriving DecidableEq, Repr

/-- `RedFlagMultipliers` record. -/
structure RedFlagMultipliers where
  malignancy_multiplier : ℚ
  chronic_infection_multiplier : ℚ
  MS_multiplier : ℚ
  dysautonomia_multiplier : ℚ
  adrenal_insufficiency_multiplier : ℚ
  autoimmune_multiplier : ℚ
deriving DecidableEq, Repr

/-- The weight-unit alternation `(?:kg|kilograms?|pounds?|lbs)` of the
weight-loss regexes. -/
def mUnitWeight : Matcher :=
  mAlt [ mLit "kg",
         mSeq (mLit "kilogram") (mOpt (mLit "s")),
         mSeq (mLit "pound") (mOpt (mLit "s")),
         mLit "lbs" ]

/-- The three weight-loss regexes, in source order, as pre/post matcher
pairs around the digit group. -/
def weightLossPatterns : List (Matcher × Matcher) :=
  [ (mSeq (mAlt [mLit "lost", mLit "losing"]) mWs1, mSeq mWs0 mUnitWeight),
    (mSeq (mLit "weight") (mSeq mWs1 (mSeq (mLit "loss") (mSeq mWs1 (mSeq (mLit "of") mWs1)))),
     mSeq mWs0 mUnitWeight),
    (mEps,
     mSeq mWs0 (mSeq mUnitWeight (mSeq mWs1 (mSeq (mOpt (mSeq (mLit "weight") mWs1)) (mLit "loss"))))) ]

/-- The parsed weight-loss amount in kilograms: the first regex (in
order) with a match anywhere yields its captured number, converted with
the factor 0.453592 when the text mentions pounds anywhere; 0 when no
regex matches. -/
def parsedWeightLossAmount (text : String) : ℚ :=
  match weightLossPatterns.findSome? (fun pm => scanMatch pm.1 pm.2 text.data) with
  | some value =>
    if jsIncludes text "pound" || jsIncludes text "lb" then (value : ℚ) * 0.453592
    else (value : ℚ)
  | none => 0

/-- The effective weight-loss amount: the parsed amount, or the assumed
3 kg when no amount parsed but the text calls the loss significant. -/
def weightLossAmount (text : String) : ℚ :=
  let parsed := parsedWeightLossAmount text
  if parsed == 0 &&
     (jsIncludes text "significant weight loss" || jsIncludes text "a lot of weight" ||
      jsIncludes text "unintentional weight loss") then 3
  else parsed

/-- Trigger of the weight-loss red flag: the guard text mentions weight
loss and the effective amount is at least 2 kg. -/
def weightLossFired (text : String) : Bool :=
  (jsIncludes text "weight loss" || jsIncludes text "lost weight") &&
    decide (weightLossAmount text ≥ 2)

/-- Trigger of the night-sweats red flag. -/
def nightSweatsFired (text : String) : Bool :=
  jsIncludes text "night sweat" || jsIncludes text "sweating at night" ||
  jsIncludes text "drenching sweat" || jsIncludes text "soaked at night"

/-- Neurological-symptom test shared by two rules. -/
def hasNeuroSymptoms (text : String) : Bool :=
  jsIncludes text "numbness" || jsIncludes text "tingling" ||
  jsIncludes text "weakness" || jsIncludes text "balance problem"

/-- Visual-changes test. -/
def hasVisualChanges (text : String) : Bool :=
  jsIncludes text "vision" || jsIncludes text "blurred" ||
  jsIncludes text "double vision" || jsIncludes text "visual"

/-- Trigger of the neurological + visual red flag. -/
def neuroVisualFired (text : String) : Bool :=
  hasNeuroSymptoms text && hasVisualChanges text

/-- Trigger of the orthostatic-dizziness red flag.  The `&&` binds
tighter than `||` in the source, exactly as written here. -/
def orthostaticFired (text : String) : Bool :=
  jsIncludes text "orthostatic" ||
  (jsIncludes text "dizziness" && jsIncludes text "standing") ||
  (jsIncludes text "dizzy" && (jsIncludes text "stand" || jsIncludes text "up"))

/-- The combined lowercase symptom/answer text all red-flag rules read. -/
def redFlagText (symptoms : String) (answers : List String) : String :=
  jsToLower (symptoms ++ " " ++ joinSpace answers)

/-- `detectRedFlags(symptoms, answers, profile)` (the profile parameter
is never read in the body). -/
def detectRedFlags (symptoms : String) (answers : List String) (_profile : Option Profile) :
    List RedFlag × RedFlagMultipliers :=
  let text := redFlagText symptoms answers
  let redFlags : List RedFlag := []
  let multipliers : RedFlagMultipliers := ⟨1.0, 1.0, 1.0, 1.0, 1.0, 1.0⟩
  -- Weight loss > 2kg in 2 months
  let (redFlags, multipliers) :=
    if (jsIncludes text "weight loss" || jsIncludes text "lost weight") &&
       decide (weightLossAmount text ≥ 2) then
      (redFlags ++ [{ name := "Significant Weight Loss", detected := true,
                      severity := min (weightLossAmount text / 5) 1.0 }],
       { multipliers with malignancy_multiplier := multipliers.malignancy_multiplier + 1.5 })
    else (redFlags, multipliers)
  -- Night sweats
  let (redFlags, multipliers) :=
    if nightSweatsFired text then
      (redFlags ++ [{ name := "Night Sweats", detected := true, severity := 0.8 }],
       { multipliers with
           malignancy_multiplier := multipliers.malignancy_multiplier + 1.4,
           chronic_infection_multiplier := multipliers.chronic_infection_multiplier + 1.4 })
    else (redFlags, multipliers)
  -- Neuro symptoms + visual changes
  let (redFlags, multipliers) :=
    if hasNeuroSymptoms text && hasVisualChanges text then
      (redFlags ++ [{ name := "Neurological + Visual Symptoms", detected := true, severity := 0.9 }],
       { multipliers with MS_multiplier := multipliers.MS_multiplier + 1.6 })
    else (redFlags, multipliers)
  -- Orthostatic dizziness
  let (redFlags, multipliers) :=
    if orthostaticFired text then
      (redFlags ++ [{ name := "Orthostatic Dizziness", detected := true, severity := 0.7 }],
       { multipliers with
           dysautonomia_multiplier := multipliers.dysautonomia_multiplier + 1.4,
           adrenal_insufficiency_multiplier := multipliers.adrenal_insufficiency_multiplier + 1.3 })
    else (redFlags, multipliers)
  -- Orthostatic dizziness + numbness
  let multipliers :=
    if redFlags.any (fun rf => rf.name == "Orthostatic Dizziness") && hasNeuroSymptoms text then
      { multipliers with
          dysautonomia_multiplier := multipliers.dysautonomia_multiplier + 0.3,
          adrenal_insufficiency_multiplier := multipliers.adrenal_insufficiency_multiplier + 0.2 }
    else multipliers
  (redFlags, multipliers)

/-- Category test: malignancy diseases. -/
def isMalignancyName (diseaseName : String) : Bool :=
  jsIncludes diseaseName "Lymphoma" || jsIncludes diseaseName "Cancer"

/-- Category test: chronic-infection diseases. -/
def isChronicInfectionName (diseaseName : String) : Bool :=
  jsIncludes diseaseName "EBV" || jsIncludes diseaseName "CMV" ||
  jsIncludes diseaseName "Tuberculosis" || jsIncludes diseaseName "TB" ||
  jsIncludes diseaseName "Chronic Infection"

/-- Category test: MS. -/
def isMSName (diseaseName : String) : Bool :=
  jsIncludes diseaseName "Multiple Sclerosis" || jsIncludes diseaseName "MS"

/-- Category test: autonomic dysfunction. -/
def isDysautonomiaName (diseaseName : String) : Bool :=
  jsIncludes diseaseName "POTS" || jsIncludes diseaseName "Autonomic Dysfunction"

/-- Category test: adrenal insufficiency. -/
def isAdrenalName (diseaseName : String) : Bool :=
  jsIncludes diseaseName "Adrenal Insufficiency"

/-- Category test: autoimmune diseases (the source compares against the
mojibake literal `Sj√∂gren`, reproduced here verbatim). -/
def isAutoimmuneName (diseaseName : String) : Bool :=
  jsIncludes diseaseName "Lupus" || jsIncludes diseaseName "Rheumatoid" ||
  jsIncludes diseaseName "Still" || jsIncludes diseaseName "Sj√∂gren" ||
  jsIncludes diseaseName "Vasculitis" || jsIncludes diseaseName "Sarcoidosis"

/-- `applyRedFlagMultipliers(diseaseName, multipliers)`. -/
def applyRedFlagMultipliers (diseaseName : String) (multipliers : RedFlagMultipliers) : ℚ :=
  let multiplier : ℚ := 1.0
  let multiplier :=
    if isMalignancyName diseaseName then multiplier * multipliers.malignancy_multiplier
    else multiplier
  let multiplier :=
    if isChronicInfectionName diseaseName then multiplier * multipliers.chronic_infection_multiplier
    else multiplier
  let multiplier :=
    if isMSName diseaseName then multiplier * multipliers.MS_multiplier else multiplier
  let multiplier :=
    if isDysautonomiaName diseaseName then multiplier * multipliers.dysautonomia_multiplier
    else multiplier
  let multiplier :=
    if isAdrenalName diseaseName then multiplier * multipliers.adrenal_insufficiency_multiplier
    else multiplier
  let multiplier :=
    if isAutoimmuneName diseaseName then multiplier * multipliers.autoimmune_multiplier
    else multiplier
  multiplier

end ISP.RedFlags

namespace ISP.Patterns
/-! Embedding of `src/ai/medical-data/pattern-detection.ts`. -/

/-- `PatternMatch` record. -/
structure PatternMatch where
  pattern : String
  detected : Bool
  diseases : List String
  multiplier : ℚ
deriving DecidableEq, Repr

/-- `detectPatterns(symptoms, answers)`; `&&` binds tighter than `||`
throughout, exactly as in the source. -/
def detectPatterns (symptoms : String) (answers : List String) : List PatternMatch :=
  let text := jsToLower (symptoms ++ " " ++ joinSpace answers)
  let patterns : List PatternMatch := []
  -- Pattern 1: Migratory joint pain + transient rash
  let hasMigratoryJointPain :=
    jsIncludes text "migratory joint" ||
    (jsIncludes text "joint pain" && (jsIncludes text "moving" || jsIncludes text "different joints"))
  let hasTransientRash :=
    jsIncludes text "transient rash" ||
    (jsIncludes text "rash" && (jsIncludes text "comes and goes" || jsIncludes text "appears and disappears"))
  let patterns :=
    if hasMigratoryJointPain && hasTransientRash then
      patterns ++ [{ pattern := "Migratory Joint Pain + Transient Rash", detected := true,
                     diseases := ["Systemic Lupus Erythematosus (SLE)", "Systemic Vasculitis",
                                  "Adult-Onset Still\x27s Disease (AOSD)"],
                     multiplier := 1.5 }]
    else patterns
  -- Pattern 2: Neuro symptoms + visual symptoms
  let hasNeuroSymptoms :=
    jsIncludes text "numbness" || jsIncludes text "tingling" ||
    jsIncludes text "weakness" || jsIncludes text "balance problem"
  let hasVisualSymptoms :=
    jsIncludes text "vision problem" || jsIncludes text "blurred vision" ||
    jsIncludes text "double vision" || jsIncludes text "visual change"
  let patterns :=
    if hasNeuroSymptoms && hasVisualSymptoms then
      patterns ++ [{ pattern := "Neurological + Visual Symptoms", detected := true,
                     diseases := ["Multiple Sclerosis (MS)", "Sjögren\x27s Syndrome"],
                     multiplier := 1.4 }]
    else patterns
  -- Pattern 3: Weight loss + night sweats
  let hasWeightLoss := jsIncludes text "weight loss" || jsIncludes text "lost weight"
  let hasNightSweats := jsIncludes text "night sweat" || jsIncludes text "sweating at night"
  let patterns :=
    if hasWeightLoss && hasNightSweats then
      patterns ++ [{ pattern := "Weight Loss + Night Sweats", detected := true,
                     diseases := ["Lymphoma", "Chronic EBV Infection", "Chronic CMV Infection",
                                  "Tuberculosis (TB)"],
                     multiplier := 1.6 }]
    else patterns
  -- Pattern 4: Orthostatic dizziness + numbness
  let hasOrthostaticDizziness :=
    jsIncludes text "orthostatic" || (jsIncludes text "dizziness" && jsIncludes text "standing")
  let hasNumbness := jsIncludes text "numbness" || jsIncludes text "tingling"
  let patterns :=
    if hasOrthostaticDizziness && hasNumbness then
      patterns ++ [{ pattern := "Orthostatic Dizziness + Numbness", detected := true,
                     diseases := ["POTS (Postural Orthostatic Tachycardia Syndrome)",
                                  "Autonomic Dysfunction", "Adrenal Insufficiency"],
                     multiplier := 1.5 }]
    else patterns
  patterns

/-- `applyPatternMultipliers(diseaseName, patterns)`. -/
def applyPatternMultipliers (diseaseName : String) (patterns : List PatternMatch) : ℚ :=
  patterns.foldl
    (fun multiplier p =>
      if p.detected && p.diseases.any (fun d => jsIncludes diseaseName d) then
        multiplier * p.multiplier
      else multiplier)
    1.0

end ISP.Patterns

namespace ISP.Advanced
/-! Embedding of the deterministic scoring/display stages of
`src/ai/flows/advanced-symptom-analysis.ts`.  The Groq-generated
per-condition explanation text and the API-key environment check are
external decoration outside the scoring core and are not modelled. -/

open ISP.Medical ISP.MultiSystem ISP.TimeCourseLogic ISP.RedFlags ISP.Patterns

/-- JS `Map.set` on an insertion-ordered association list: an existing
key keeps its position, a new key is appended. -/
def mapSet (m : List (String × ℚ)) (k : String) (v : ℚ) : List (String × ℚ) :=
  if m.any (·.1 == k) then m.map (fun e => if e.1 == k then (k, v) else e)
  else m ++ [(k, v)]

/-- JS `Map.get(k) || 0`. -/
def mapGetOrZero (m : List (String × ℚ)) (k : String) : ℚ :=
  match m.lookup k with
  | some v => v
  | none => 0

/-- `extractSymptomsList`: split on comma/semicolon/newline, trim, drop
empties. -/
def extractSymptomsList (symptomsText : String) : List String :=
  ((jsSplit symptomsText (fun c => c = ',' || c = ';' || c = '\n')).map jsTrim).filter
    (fun s => s.length > 0)

/-- Matched symptoms of a disease: reported symptoms whose relevance
factor for the disease is positive. -/
def matchedSymptoms (diseaseName : String) (symptoms : List String) : List String :=
  symptoms.filter (fun s => getDiseaseRelevanceFactor diseaseName s > 0)

/-- The matched-symptom ratio used by the 30% retention filter. -/
def matchRatio (diseaseName : String) (symptoms : List String) : ℚ :=
  ((matchedSymptoms diseaseName symptoms).length : ℚ) / (max symptoms.length 1 : ℚ)

/-- Per-disease total of the multi-layer scoring model (the body of the
`DISEASE_DATABASE.forEach` callback after the 30% filter has passed). -/
def diseaseTotalScore (disease : DiseaseData) (symptoms : List String)
    (timeCourse : TimeCourseData) (redFlagMultipliers : RedFlagMultipliers)
    (patterns : List PatternMatch) (profile : Option Profile)
    (systemInvolvement : List SystemInvolvement) : ℚ :=
  let matched := matchedSymptoms disease.name symptoms
  -- 1. Symptom Cluster Match (40%)
  let symptomClusterScore : ℚ :=
    if matched.length > 0 then
      let raw := matched.foldl
        (fun acc symptom =>
          acc + getSymptomScore symptom * getDiseaseRelevanceFactor disease.name symptom) 0
      let expectedSymptomCount := disease.symptom_relevance_map.length
      raw / (max symptoms.length expectedSymptomCount : ℚ) *
        ((matched.length : ℚ) / (max symptoms.length 1 : ℚ))
    else 0
  let totalScore : ℚ := symptomClusterScore * 0.40
  -- 2. System Involvement Overlap (20%), boosted 1.5x for multi-system cases
  let conditionSystems := getConditionSystems disease.name
  let systemOverlapScore := calculateMultiSystemOverlap conditionSystems systemInvolvement
  let multiSystemCount := systemInvolvement.length
  let totalScore :=
    if multiSystemCount ≥ 3 && conditionSystems.length ≥ 2 then
      totalScore + systemOverlapScore * 0.20 * 1.5
    else
      totalScore + systemOverlapScore * 0.20
  -- 3. Temporal Pattern Match (15%)
  let timeCourseAdjustments := applyTimeCourseLogic timeCourse [disease.name]
  let temporalScore : ℚ :=
    match timeCourseAdjustments with
    | adj :: _ => min adj.multiplier 2.0 / 2.0
    | [] => 1.0
  let totalScore := totalScore + temporalScore * 0.15
  -- 4. Trigger/Pattern Match (10%)
  let patternScore := min (applyPatternMultipliers disease.name patterns) 2.0 / 2.0
  let totalScore := totalScore + patternScore * 0.10
  -- 5. Demographic Compatibility (10%)
  let demographicScore : ℚ :=
    match profile.bind (·.age) with
    | some ageStr =>
      match jsParseInt ageStr with
      | some age =>
        if jsIncludes disease.name "Still" && age < 16 then 0.3
        else if jsIncludes disease.name "MS" && age < 20 then 0.5
        else 1.0
      | none => 1.0
    | none => 1.0
  let totalScore := totalScore + demographicScore * 0.10
  -- 6. Rare-but-High-Impact Rules (5%)
  let redFlagMultiplier := applyRedFlagMultipliers disease.name redFlagMultipliers
  let rareImpactScore := min redFlagMultiplier 2.0 / 2.0
  totalScore + rareImpactScore * 0.05

/-- `calculateDiseaseScores` (advanced multi-layer variant): every
database disease with at least a 30% matched-symptom ratio is scored;
the rest are skipped. -/
def calculateDiseaseScores (symptoms : List String) (timeCourse : TimeCourseData)
    (redFlagMultipliers : RedFlagMultipliers) (patterns : List PatternMatch)
    (profile : Option Profile) (systemInvolvement : List SystemInvolvement) :
    List (String × ℚ) :=
  DISEASE_DATABASE.foldl
    (fun diseaseScores disease =>
      if matchRatio disease.name symptoms < 0.3 then diseaseScores
      else
        mapSet diseaseScores disease.name
          (diseaseTotalScore disease symptoms timeCourse redFlagMultipliers
            patterns profile systemInvolvement))
    []

/-- `applyConditionFiltering` (advanced variant): priority-condition
rules over the joined lowercase symptom/answer text (the excluded-
conditions list the source also builds is never returned). -/
def applyConditionFiltering (symptoms answers : List String) : List String :=
  let text := jsToLower (joinSpace symptoms ++ " " ++ joinSpace answers)
  let symptomsLower := jsToLower (joinSpace symptoms)
  let priorityConditions : List String := []
  let priorityConditions :=
    if jsIncludes symptomsLower "weight loss" &&
       (jsIncludes symptomsLower "heat" || jsIncludes symptomsLower "sweating") &&
       (jsIncludes symptomsLower "palpitation" || jsIncludes symptomsLower "heart") then
      priorityConditions ++ ["Hyperthyroidism", "Graves\x27 Disease", "Pheochromocytoma"]
    else priorityConditions
  let priorityConditions :=
    if (jsIncludes symptomsLower "frequent urination" || jsIncludes symptomsLower "excessive thirst") &&
       jsIncludes symptomsLower "weight loss" then
      priorityConditions ++ ["Diabetes Mellitus Type 2", "Hyperthyroidism"]
    else priorityConditions
  let priorityConditions :=
    if jsIncludes symptomsLower "palpitation" &&
       (jsIncludes text "stress" || jsIncludes text "exertion" || jsIncludes text "trigger") &&
       (jsIncludes symptomsLower "tremor" || jsIncludes symptomsLower "shaking") then
      priorityConditions ++ ["Pheochromocytoma", "Hyperthyroidism", "POTS", "Autonomic Dysfunction"]
    else priorityConditions
  let priorityConditions :=
    if (jsIncludes symptomsLower "numbness" || jsIncludes symptomsLower "tingling" ||
        jsIncludes symptomsLower "weakness") &&
       (jsIncludes symptomsLower "dizziness" || jsIncludes symptomsLower "orthostatic") then
      priorityConditions ++ ["Multiple Sclerosis (MS)", "POTS", "Autonomic Dysfunction",
                             "Guillain-Barré Syndrome (GBS)"]
    else priorityConditions
  priorityConditions

/-- `normalizeScores` (advanced variant): rescale to 0–100 by the batch
maximum (scores returned unchanged when the maximum is 0), raising any
positive score that lands below 5 to the 5% display floor. -/
def normalizeScores (scores : List (String × ℚ)) : List (String × ℚ) :=
  match (scores.map (·.2)).max? with
  | none => scores
  | some maxScore =>
    if maxScore = 0 then scores
    else
      scores.map (fun e =>
        let normalizedScore := e.2 / maxScore * 100
        if e.2 > 0 && normalizedScore < 5 then (e.1, 5)
        else (e.1, normalizedScore))

/-- The priority boost loop: each priority condition's current score
(0 when absent from the map) is multiplied by 1.3 and written back,
inserting conditions that were filtered out with score 0. -/
def boostPriorityConditions (diseaseScores : List (String × ℚ))
    (priorityConditions : List String) : List (String × ℚ) :=
  priorityConditions.foldl
    (fun m conditionName => mapSet m conditionName (mapGetOrZero m conditionName * 1.3))
    diseaseScores

/-- Stable insertion sort, descending by score: ties and equal scores
keep their relative input order.  `Array.prototype.sort` with the
comparator `(a, b) => b[1] - a[1]` is stable (ES2019), and a stable
descending sort is unique, so this models it exactly. -/
def insertDesc (x : String × ℚ) : List (String × ℚ) → List (String × ℚ)
  | [] => [x]
  | y :: ys => if y.2 > x.2 then y :: insertDesc x ys else x :: y :: ys

/-- Stable descending sort by score. -/
def sortByScoreDesc (l : List (String × ℚ)) : List (String × ℚ) :=
  l.foldr insertDesc []

/-- `Array.prototype.indexOf` called on a freshly constructed pair
`[_, score]`: `indexOf` compares with `===`, and a fresh array literal
is reference-distinct from every element of `sortedAll`, so the result
is always -1. -/
def jsIndexOfFreshPair (_sortedAll : List (String × ℚ)) (_e : String × ℚ) : Int := -1

/-- The display filter between normalization and result construction:
keep entries scoring at least the threshold (25, or 0 when the top
score is below 25) or whose `indexOf` test passes, then cap at 10. -/
def displayFilter (sortedAll : List (String × ℚ)) : List (String × ℚ) :=
  let topScore := ((sortedAll.head?).map (·.2)).getD 0
  let threshold : ℚ := if topScore < 25 then 0 else 25
  (sortedAll.filter
    (fun e => e.2 ≥ threshold || jsIndexOfFreshPair sortedAll e < 3)).take 10

/-- Output record for one condition (likelihood on the 0–1 scale and its
display string; the LLM explanation is not modelled). -/
structure ConditionResult where
  condition : String
  likelihood : ℚ
  displayLikelihood : String
  description : String
  webmd_search_term : String
  cluster : List String
deriving DecidableEq, Repr

/-- Result construction for the selected conditions: the sub-5% floor
re-applied, sub-10% scores shown as the fixed low-likelihood string,
others as a rounded percentage; conditions absent from the database are
dropped. -/
def buildConditionResults (sortedDiseases : List (String × ℚ)) : List ConditionResult :=
  sortedDiseases.foldl
    (fun conditions e =>
      match DISEASE_DATABASE.find? (fun d => d.name == e.1) with
      | none => conditions
      | some disease =>
        let score := e.2
        let displayScore := if score < 5 && score > 0 then 5 else score
        let displayLikelihood :=
          if displayScore < 10 && displayScore > 0 then "Low likelihood (<10%)"
          else toString (jsRound displayScore) ++ "%"
        conditions ++ [{ condition := e.1
                         likelihood := displayScore / 100
                         displayLikelihood := displayLikelihood
                         description := disease.description
                         webmd_search_term := disease.webmd_search_term
                         cluster := disease.cluster }])
    []

/-- The post-scoring map of `advancedSymptomAnalysis`: multi-layer
scores plus the priority boost. -/
def boostedScores (symptomsText answersText : String) (profile : Option Profile) :
    List (String × ℚ) :=
  let symptoms := extractSymptomsList symptomsText
  let timeCourse := extractTimeCourseData symptomsText [answersText]
  let redFlagMultipliers := (detectRedFlags symptomsText [answersText] profile).2
  let patterns := detectPatterns symptomsText [answersText]
  let systemInvolvement := analyzeSystemInvolvement symptoms
  let priorityConditions := applyConditionFiltering symptoms [answersText]
  let diseaseScores := calculateDiseaseScores symptoms timeCourse redFlagMultipliers
    patterns profile systemInvolvement
  boostPriorityConditions diseaseScores priorityConditions

/-- The deterministic scoring/display stage of `advancedSymptomAnalysis`
(`none` models the `No symptoms detected` throw for an empty symptom
list). -/
def advancedConditions (symptomsText answersText : String) (profile : Option Profile) :
    Option (List ConditionResult) :=
  let symptoms := extractSymptomsList symptomsText
  if symptoms.length = 0 then none
  else
    let normalizedScores := normalizeScores (boostedScores symptomsText answersText profile)
    let sortedAll := sortByScoreDesc normalizedScores
    some (buildConditionResults (displayFilter sortedAll))

end ISP.Advanced

namespace ISP.Scoring
/-! Embedding of the pure client-side scoring module (`scoring.ts`,
`src/unnamed/part_003`).  The module reads its reference tables from
`symptomWeights.json` / `diseases.json`; the functions are therefore
parametric in those two tables, quantified over in the theorems. -/

open ISP.Medical

/-- Client `ConditionResult` record. -/
structure ConditionResult where
  condition : String
  likelihood : ℚ
  displayLikelihood : String
  description : String
  webmd_search_term : String
  cluster : List String
  explanation : String
deriving DecidableEq, Repr

/-- Client `getSymptomScore`: exact key (the stored value is an object,
hence truthy), then first partial match in table order, then the
`0.5 * 0.3` default. -/
def getSymptomScore (weights : List (String × SymptomWeight)) (symptom : String) : ℚ :=
  let normalized := jsTrim (jsToLower symptom)
  match weights.lookup normalized with
  | some w => w.severity_weight * w.specificity_weight
  | none =>
    match weights.find? (fun e => jsIncludes normalized e.1 || jsIncludes e.1 normalized) with
    | some e => e.2.severity_weight * e.2.specificity_weight
    | none => 0.5 * 0.3

/-- Client `getDiseaseRelevance`: the exact-match test is a JS
truthiness test on the stored number, so a stored 0 falls through to
the partial scan; unmatched tokens yield 0. -/
def getDiseaseRelevance (disease : DiseaseData) (symptom : String) : ℚ :=
  let normalized := jsTrim (jsToLower symptom)
  let partial_ :=
    match disease.symptom_relevance_map.find?
        (fun e => jsIncludes normalized e.1 || jsIncludes e.1 normalized) with
    | some e => e.2
    | none => 0
  match disease.symptom_relevance_map.lookup normalized with
  | some v => if v != 0 then v else partial_
  | none => partial_

/-- Client `applyConditionFiltering`: the three priority-condition
rules over the joined lowercase symptom text. -/
def applyConditionFiltering (symptoms : List String) : List String :=
  let symptomsLower := jsToLower (joinSpace symptoms)
  let priorityConditions : List String := []
  let priorityConditions :=
    if jsIncludes symptomsLower "weight loss" &&
       (jsIncludes symptomsLower "heat" || jsIncludes symptomsLower "sweating") &&
       (jsIncludes symptomsLower "palpitation" || jsIncludes symptomsLower "heart") then
      priorityConditions ++ ["Hyperthyroidism", "Graves\x27 Disease", "Pheochromocytoma"]
    else priorityConditions
  let priorityConditions :=
    if (jsIncludes symptomsLower "frequent urination" || jsIncludes symptomsLower "excessive thirst") &&
       jsIncludes symptomsLower "weight loss" then
      priorityConditions ++ ["Diabetes Mellitus Type 2"]
    else priorityConditions
  let priorityConditions :=
    if (jsIncludes symptomsLower "numbness" || jsIncludes symptomsLower "tingling" ||
        jsIncludes symptomsLower "weakness") &&
       (jsIncludes symptomsLower "dizziness" || jsIncludes symptomsLower "orthostatic") then
      priorityConditions ++ ["Multiple Sclerosis (MS)",
                             "POTS (Postural Orthostatic Tachycardia Syndrome)",
                             "Autonomic Dysfunction"]
    else priorityConditions
  priorityConditions

/-- Client `checkRedFlags` (`&&` binds tighter than `||`, as in the
source). -/
def checkRedFlags (symptoms : List String) : List String × Bool :=
  let text := jsToLower (joinSpace symptoms)
  let st : List String × Bool := ([], false)
  let st :=
    if jsIncludes text "chest pain" &&
       (jsIncludes text "syncope" || jsIncludes text "fainting" ||
        (jsIncludes text "severe" && jsIncludes text "breathing")) then
      (st.1 ++ ["Chest pain with syncope or severe breathing difficulty"], true)
    else st
  let st :=
    if jsIncludes text "weight loss" && jsIncludes text "night sweat" then
      (st.1 ++ ["Unintentional weight loss with night sweats"], true)
    else st
  st

/-- Per-disease raw score and matched-symptom count of the client
`calculateDiseaseScores` loop. -/
def rawScoreAndMatches (weights : List (String × SymptomWeight)) (disease : DiseaseData)
    (symptoms : List String) : ℚ × Nat :=
  symptoms.foldl
    (fun st symptom =>
      let symptomScore := getSymptomScore weights symptom
      let relevance := getDiseaseRelevance disease symptom
      if relevance > 0 then (st.1 + relevance * symptomScore, st.2 + 1) else st)
    (0, 0)

/-- Client matched-symptom ratio. -/
def symptomMatchRatio (weights : List (String × SymptomWeight)) (disease : DiseaseData)
    (symptoms : List String) : ℚ :=
  ((rawScoreAndMatches weights disease symptoms).2 : ℚ) / (max symptoms.length 1 : ℚ)

/-- Client `calculateDiseaseScores`: a disease is kept when its
matched-symptom ratio reaches 15% or it is a priority condition;
priority conditions get a 1.3x boost. -/
def calculateDiseaseScores (weights : List (String × SymptomWeight))
    (diseases : List DiseaseData) (symptoms : List String) (_answers : List String) :
    List (String × ℚ) :=
  let priorityConditions := applyConditionFiltering symptoms
  diseases.foldl
    (fun diseaseScores disease =>
      let rawScore := (rawScoreAndMatches weights disease symptoms).1
      if symptomMatchRatio weights disease symptoms < 0.15 &&
         !priorityConditions.contains disease.name then
        diseaseScores
      else
        let rawScore :=
          if priorityConditions.contains disease.name then rawScore * 1.3 else rawScore
        ISP.Advanced.mapSet diseaseScores disease.name rawScore)
    []

/-- Client `normalizeScores`: divide by `Math.max(...values, 0.001)`
(never 0, so the `maxScore === 0` early return is dead code, kept for
fidelity). -/
def normalizeScores (scores : List (String × ℚ)) : List (String × ℚ) :=
  let maxScore := (scores.map (·.2)).foldl max 0.001
  if maxScore = 0 then scores
  else scores.map (fun e => (e.1, e.2 / maxScore))

/-- The clamped numeric of client `clampDisplayScore`: positive scores
floored at 0.05. -/
def clampedScoreOf (score : ℚ) : ℚ := if score < 0.05 then 0.05 else score

/-- Client `clampDisplayScore`: hide exact zeros, floor positive scores
at 0.05, render sub-10% scores as the fixed low-likelihood string and
the rest as a rounded percentage. -/
def clampDisplayScore (score : ℚ) : Option (ℚ × String) :=
  if score = 0 then none
  else if clampedScoreOf score < 0.10 then
    some (clampedScoreOf score, "Low likelihood (<10%)")
  else
    some (clampedScoreOf score, toString (jsRound (clampedScoreOf score * 100)) ++ "%")

/-- `conditions[0]?.likelihood || 0`. -/
def topScore (conditions : List ConditionResult) : ℚ :=
  ((conditions.head?).map (·.likelihood)).getD 0

/-- `conditions[1]?.likelihood || 0`. -/
def secondScore (conditions : List ConditionResult) : ℚ :=
  ((conditions.get? 1).map (·.likelihood)).getD 0

/-- Outcome of `getDisplayConditions`. -/
structure DisplayOutcome where
  conditions : List ConditionResult
  label : Option String
deriving DecidableEq, Repr

/-- Client `getDisplayConditions`: n is 3 when the top score is below
0.40, else 5; a sub-0.10 gap between the two leading scores overrides
n to 3 and attaches the close-call label.  (The source computes n first
and then overrides it; the override is written here as the first test,
which selects the same branch.) -/
def getDisplayConditions (conditions : List ConditionResult) : DisplayOutcome :=
  if conditions.length = 0 then ⟨[], none⟩
  else if topScore conditions - secondScore conditions < 0.10 && conditions.length > 1 then
    ⟨conditions.take 3, some "Close call — consider more information"⟩
  else if topScore conditions < 0.40 then ⟨conditions.take 3, none⟩
  else ⟨conditions.take 5, none⟩

/-- Stable insertion step for the descending likelihood sort. -/
def insertCondDesc (x : ConditionResult) : List ConditionResult → List ConditionResult
  | [] => [x]
  | y :: ys => if y.likelihood > x.likelihood then y :: insertCondDesc x ys else x :: y :: ys

/-- Stable descending sort by likelihood, modelling the stable ES2019
`Array.prototype.sort` with comparator `(a, b) => b.likelihood -
a.likelihood` (a stable descending sort is unique). -/
def sortCondDesc (l : List ConditionResult) : List ConditionResult :=
  l.foldr insertCondDesc []

/-- The fixed-template explanation built from the first two matched
symptoms. -/
def simpleExplanation (matched : List String) : String :=
  "This condition may be considered based on " ++
    String.intercalate " and " (matched.take 2) ++
    (if matched.length > 2 then " and other symptoms" else "") ++ "."

/-- Outcome of `scoreSymptoms`. -/
structure ScoreOutcome where
  conditions : List ConditionResult
  redFlags : List String × Bool
  label : Option String
deriving DecidableEq, Repr

/-- The result-construction loop of client `scoreSymptoms`: clamp each
normalized score for display (hiding zeros), look the disease up and
attach the fixed-template explanation. -/
def buildClientConditions (weights : List (String × SymptomWeight))
    (diseases : List DiseaseData) (symptoms : List String)
    (normalizedScores : List (String × ℚ)) : List ConditionResult :=
  normalizedScores.foldl
    (fun conditions e =>
      match clampDisplayScore e.2 with
      | none => conditions
      | some clamped =>
        match diseases.find? (fun d => d.name == e.1) with
        | none => conditions
        | some disease =>
          let matched := symptoms.filter (fun s => getDiseaseRelevance disease s > 0)
          conditions ++ [{ condition := e.1
                           likelihood := clamped.1
                           displayLikelihood := clamped.2
                           description := disease.description
                           webmd_search_term := disease.webmd_search_term
                           cluster := disease.cluster
                           explanation := simpleExplanation matched }])
    []

/-- Client `scoreSymptoms`: red flags, raw scores, normalization,
display clamping with fixed-template explanations, stable descending
sort and the dynamic display rules. -/
def scoreSymptoms (weights : List (String × SymptomWeight)) (diseases : List DiseaseData)
    (symptoms : List String) (answers : List String) : ScoreOutcome :=
  let redFlags := checkRedFlags symptoms
  let rawScores := calculateDiseaseScores weights diseases symptoms answers
  let normalizedScores := normalizeScores rawScores
  let conditions := buildClientConditions weights diseases symptoms normalizedScores
  let sorted := sortCondDesc conditions
  let display := getDisplayConditions sorted
  { conditions := display.conditions, redFlags := redFlags, label := display.label }

end ISP.Scoring

namespace ISP.Scoring

/-- Modelled from the spec: the client bundle's `symptomWeights.json`
is not part of the repository snapshot; per the specification the two
scoring modes share the same reference data, so the client weight table
is modelled as the server `SYMPTOM_WEIGHTS` table. -/
def clientSymptomWeights : List (String × Medical.SymptomWeight) :=
  Medical.SYMPTOM_WEIGHTS

/-- Modelled from the spec: the client bundle's `diseases.json` is not
part of the repository snapshot; per the specification the two scoring
modes share the same reference data, so the client disease table is
modelled as the server `DISEASE_DATABASE` table (same record shape). -/
def clientDiseases : List Medical.DiseaseData :=
  Medical.DISEASE_DATABASE

end ISP.Scoring

namespace ISP

/-! ### Interface definitions used by the verification statements -/

/-- A well-formed interpretation string: non-empty and free of the
"not available" / "unavailable" phrases (checked on the lowercased
string, as the smoke tests do). -/
def InterpOK (s : String) : Prop :=
  s ≠ "" ∧ jsIncludes (jsToLower s) "not available" = false ∧
    jsIncludes (jsToLower s) "unavailable" = false

/-- The fixed interpretation strings the inference rules can set before
the duration-bucket build step. -/
def ruleInterps : List String :=
  [ TimeInference.interpWeightLoss, TimeInference.interpCardiac,
    TimeInference.interpTremor, TimeInference.interpNeuro,
    TimeInference.interpDefault ]

/-- Every interpretation string `inferTimeCourse` can return. -/
def allInterps : List String :=
  ruleInterps ++
    (([TimeInference.bucketOver90, TimeInference.bucketOver21,
       TimeInference.bucketOver14, TimeInference.bucketRecent].flatMap
      (fun b => [b, b ++ TimeInference.suffixRelapsing,
                 b ++ TimeInference.suffixProgressive,
                 b ++ TimeInference.suffixChronic])) ++
     [TimeInference.suffixRelapsing, TimeInference.suffixProgressive,
      TimeInference.suffixChronic])

/-- Condition summary triple used by the concrete-run statements. -/
def condSummary (c : Advanced.ConditionResult) : String × ℚ × String :=
  (c.condition, c.likelihood, c.displayLikelihood)

/-- Membership test by condition name on an advanced result list. -/
def hasCondition (name : String) (l : List Advanced.ConditionResult) : Bool :=
  l.any (fun c => c.condition == name)

/-- A seven-symptom input on which the advanced pipeline's rule 4 fires
while every database disease stays below the 30% match ratio. -/
def sevenSymptomInput : String :=
  "numbness, dizziness, cough, rash, diarrhea, constipation, vomiting"

/-- The symptom list the advanced pipeline extracts from
`sevenSymptomInput`. -/
def sevenSymptoms : List String := Advanced.extractSymptomsList sevenSymptomInput

/-- A small concrete context for exercising the advanced scorer:
no time-course, neutral multipliers, no patterns, no profile, no
system involvement. -/
def neutralTimeCourse : TimeCourseLogic.TimeCourseData :=
  { duration_days := none, pattern := "unknown", derived := false }

/-- Neutral red-flag multipliers (all 1). -/
def neutralMultipliers : RedFlags.RedFlagMultipliers := ⟨1, 1, 1, 1, 1, 1⟩

/-- Witness symptom list for the advanced threshold statement. -/
def advWitnessSymptoms : List String := ["numbness", "tingling", "dizziness"]

/-- First entry of the advanced scorer on the witness symptom list. -/
def advWitnessEntry : String × ℚ :=
  (Advanced.calculateDiseaseScores advWitnessSymptoms neutralTimeCourse
    neutralMultipliers [] none []).headD ("", 0)

/-- A four-entry sorted result list whose two leading scores are within
0.10 of each other (close call). -/
def closeCallList : List Scoring.ConditionResult :=
  [ { condition := "A", likelihood := 0.50, displayLikelihood := "50%", description := "",
      webmd_search_term := "", cluster := [], explanation := "" },
    { condition := "B", likelihood := 0.45, displayLikelihood := "45%", description := "",
      webmd_search_term := "", cluster := [], explanation := "" },
    { condition := "C", likelihood := 0.30, displayLikelihood := "30%", description := "",
      webmd_search_term := "", cluster := [], explanation := "" },
    { condition := "D", likelihood := 0.20, displayLikelihood := "20%", description := "",
      webmd_search_term := "", cluster := [], explanation := "" } ]

/-- First condition returned by the client pipeline on a one-symptom
input over the modelled tables. -/
def clientWitnessCondition : Scoring.ConditionResult :=
  (Scoring.scoreSymptoms Scoring.clientSymptomWeights Scoring.clientDiseases
    ["fatigue"] []).conditions.headD
    { condition := "", likelihood := 0, displayLikelihood := "", description := "",
      webmd_search_term := "", cluster := [], explanation := "" }

end ISP

namespace ISP.Scoring

/-- Nonnegativity of a weight table (per the data model, both weights
of every entry lie in [0,1]; only nonnegativity is needed). -/
def WeightsNonneg (weights : List (String × Medical.SymptomWeight)) : Prop :=
  ∀ e ∈ weights, 0 ≤ e.2.severity_weight ∧ 0 ≤ e.2.specificity_weight

/-- The per-condition guarantee carried through the client pipeline. -/
def GoodCondition (c : ConditionResult) : Prop :=
  1/20 ≤ c.likelihood ∧ c.likelihood ≤ 1 ∧
    (1/10 ≤ c.likelihood → jsIncludes c.displayLikelihood "%" = true) ∧
    (c.likelihood < 1/10 → c.displayLikelihood = "Low likelihood (<10%)")

end ISP.Scoring

namespace ISP

/-! ### General lemmas about the JS-semantics helpers -/

theorem lookup_some_mem {β : Type} :
    ∀ {l : List (String × β)} {k : String} {v : β}, l.lookup k = some v → (k, v) ∈ l := by
  intro l
  induction l with
  | nil => intro k v h; simp [List.lookup] at h
  | cons e rest ih =>
    intro k v h
    obtain ⟨a, b⟩ := e
    by_cases hk : k = a
    · subst hk
      simp [List.lookup] at h
      subst h
      exact List.mem_cons_self _ _
    · have hb : (k == a) = false := beq_false_of_ne hk
      simp [List.lookup, hb] at h
      exact List.mem_cons_of_mem _ (ih h)

theorem containsSub_append_self (pat : List Char) : ∀ l : List Char, containsSub (l ++ pat) pat = true := by
  intro l
  induction l with
  | nil =>
    rw [List.nil_append]
    unfold containsSub
    have : pat.isPrefixOf pat = true := List.isPrefixOf_iff_prefix.2 (List.prefix_refl pat)
    simp [this]
  | cons c rest ih =>
    rw [List.cons_append]
    unfold containsSub
    simp [ih]

theorem jsIncludes_append_right (a t : String) : jsIncludes (a ++ t) t = true := by
  unfold jsIncludes
  rw [String.data_append]
  exact containsSub_append_self t.data a.data

theorem foldl_max_init_le : ∀ (l : List ℚ) (init : ℚ), init ≤ l.foldl max init := by
  intro l
  induction l with
  | nil => intro init; simp
  | cons x xs ih =>
    intro init
    rw [List.foldl_cons]
    exact le_trans (le_max_left _ _) (ih _)

theorem mem_le_foldl_max : ∀ (l : List ℚ) (init x : ℚ), x ∈ l → x ≤ l.foldl max init := by
  intro l
  induction l with
  | nil => intro init x hx; simp at hx
  | cons y ys ih =>
    intro init x hx
    rw [List.foldl_cons]
    rcases List.mem_cons.1 hx with h | h
    · subst h
      exact le_trans (le_max_right _ _) (foldl_max_init_le ys _)
    · exact ih _ x h

theorem mapSet_mem {m : List (String × ℚ)} {k : String} {v : ℚ} {e : String × ℚ}
    (h : e ∈ ISP.Advanced.mapSet m k v) : e ∈ m ∨ e = (k, v) := by
  unfold ISP.Advanced.mapSet at h
  split at h
  · obtain ⟨x, hx, hfx⟩ := List.mem_map.1 h
    by_cases hk : (x.1 == k) = true
    · rw [if_pos hk] at hfx
      right; exact hfx.symm
    · rw [if_neg hk] at hfx
      left; rw [← hfx]; exact hx
  · rcases List.mem_append.1 h with h | h
    · left; exact h
    · right; simpa using h

end ISP

namespace ISP.Scoring

theorem getSymptomScore_nonneg {weights : List (String × Medical.SymptomWeight)}
    (hW : WeightsNonneg weights) (s : String) : 0 ≤ getSymptomScore weights s := by
  simp only [getSymptomScore]
  cases hl : weights.lookup (jsTrim (jsToLower s)) with
  | some w =>
    have hm := ISP.lookup_some_mem hl
    have hw := hW _ hm
    exact mul_nonneg hw.1 hw.2
  | none =>
    cases hf : weights.find?
        (fun e => jsIncludes (jsTrim (jsToLower s)) e.1 || jsIncludes e.1 (jsTrim (jsToLower s))) with
    | some e =>
      have hm := List.mem_of_find?_eq_some hf
      have hw := hW _ hm
      exact mul_nonneg hw.1 hw.2
    | none => norm_num

theorem rawScoreAndMatches_nonneg {weights : List (String × Medical.SymptomWeight)}
    (hW : WeightsNonneg weights) (disease : Medical.DiseaseData) (symptoms : List String) :
    0 ≤ (rawScoreAndMatches weights disease symptoms).1 := by
  have key : ∀ (l : List String) (st : ℚ × Nat), 0 ≤ st.1 →
      0 ≤ (l.foldl
        (fun st symptom =>
          let symptomScore := getSymptomScore weights symptom
          let relevance := getDiseaseRelevance disease symptom
          if relevance > 0 then (st.1 + relevance * symptomScore, st.2 + 1) else st)
        st).1 := by
    intro l
    induction l with
    | nil => intro st h; exact h
    | cons x xs ih =>
      intro st h
      rw [List.foldl_cons]
      refine ih _ ?_
      simp only []
      split
      · exact add_nonneg h (mul_nonneg (le_of_lt (by assumption)) (getSymptomScore_nonneg hW x))
      · exact h
  exact key symptoms (0, 0) le_rfl

theorem clientCalc_values_nonneg {weights : List (String × Medical.SymptomWeight)}
    {diseases : List Medical.DiseaseData} {symptoms answers : List String}
    (hW : WeightsNonneg weights) :
    ∀ e ∈ calculateDiseaseScores weights diseases symptoms answers, 0 ≤ e.2 := by
  have key : ∀ (priority : List String) (ds : List Medical.DiseaseData)
      (acc : List (String × ℚ)), (∀ e ∈ acc, 0 ≤ e.2) →
      ∀ e ∈ ds.foldl
        (fun diseaseScores disease =>
          let rawScore := (rawScoreAndMatches weights disease symptoms).1
          if symptomMatchRatio weights disease symptoms < 0.15 &&
             !priority.contains disease.name then
            diseaseScores
          else
            let rawScore := if priority.contains disease.name then rawScore * 1.3 else rawScore
            ISP.Advanced.mapSet diseaseScores disease.name rawScore)
        acc, 0 ≤ e.2 := by
    intro priority ds
    induction ds with
    | nil => intro acc hacc e he; exact hacc e he
    | cons d rest ih =>
      intro acc hacc e he
      rw [List.foldl_cons] at he
      refine ih _ ?_ e he
      intro e' he'
      simp only [] at he'
      split at he'
      · exact hacc e' he'
      · rcases ISP.mapSet_mem he' with h | h
        · exact hacc e' h
        · subst h
          have hr := rawScoreAndMatches_nonneg hW d symptoms
          split
          · positivity
          · exact hr
  exact key _ diseases [] (by intro e he; simp at he)

theorem normalizeScores_bounds {raws : List (String × ℚ)} (h : ∀ e ∈ raws, 0 ≤ e.2) :
    ∀ e ∈ normalizeScores raws, 0 ≤ e.2 ∧ e.2 ≤ 1 := by
  simp only [normalizeScores]
  have hMpos : (0 : ℚ) < (raws.map (·.2)).foldl max 0.001 :=
    lt_of_lt_of_le (by norm_num) (ISP.foldl_max_init_le _ _)
  rw [if_neg (ne_of_gt hMpos)]
  intro e he
  obtain ⟨e0, he0, he0e⟩ := List.mem_map.1 he
  subst he0e
  constructor
  · exact div_nonneg (h e0 he0) (le_of_lt hMpos)
  · rw [div_le_one hMpos]
    exact ISP.mem_le_foldl_max _ _ _ (List.mem_map_of_mem _ he0)

/-- The display guarantees of one clamped score. -/
theorem clampDisplayScore_props {score q : ℚ} {s : String}
    (h0 : 0 ≤ score) (h1 : score ≤ 1)
    (h : clampDisplayScore score = some (q, s)) :
    1/20 ≤ q ∧ q ≤ 1 ∧ (1/10 ≤ q → jsIncludes s "%" = true) ∧
      (q < 1/10 → s = "Low likelihood (<10%)") := by
  have hge : 1/20 ≤ clampedScoreOf score := by
    unfold clampedScoreOf
    split_ifs with hs
    · norm_num
    · rw [not_lt] at hs
      norm_num at hs ⊢
      linarith
  have hle : clampedScoreOf score ≤ 1 := by
    unfold clampedScoreOf
    split_ifs with hs
    · norm_num
    · exact h1
  unfold clampDisplayScore at h
  split_ifs at h with hz hlow
  · rw [Option.some.injEq, Prod.mk.injEq] at h
    obtain ⟨hq, hs⟩ := h
    subst hq
    refine ⟨hge, hle, ?_, fun _ => hs.symm⟩
    intro habs
    exfalso
    norm_num at hlow
    linarith
  · rw [Option.some.injEq, Prod.mk.injEq] at h
    obtain ⟨hq, hs⟩ := h
    subst hq
    refine ⟨hge, hle, ?_, ?_⟩
    · intro _
      rw [← hs]
      exact ISP.jsIncludes_append_right _ "%"
    · intro habs
      exfalso
      rw [not_lt] at hlow
      norm_num at hlow
      linarith

theorem buildClientConditions_good {weights : List (String × Medical.SymptomWeight)}
    {diseases : List Medical.DiseaseData} {symptoms : List String} :
    ∀ (l : List (String × ℚ)), (∀ e ∈ l, 0 ≤ e.2 ∧ e.2 ≤ 1) →
      ∀ c ∈ buildClientConditions weights diseases symptoms l, GoodCondition c := by
  have key : ∀ (l : List (String × ℚ)), (∀ e ∈ l, 0 ≤ e.2 ∧ e.2 ≤ 1) →
      ∀ (acc : List ConditionResult), (∀ c ∈ acc, GoodCondition c) →
      ∀ c ∈ l.foldl
        (fun conditions e =>
          match clampDisplayScore e.2 with
          | none => conditions
          | some clamped =>
            match diseases.find? (fun d => d.name == e.1) with
            | none => conditions
            | some disease =>
              let matched := symptoms.filter (fun s => getDiseaseRelevance disease s > 0)
              conditions ++ [{ condition := e.1
                               likelihood := clamped.1
                               displayLikelihood := clamped.2
                               description := disease.description
                               webmd_search_term := disease.webmd_search_term
                               cluster := disease.cluster
                               explanation := simpleExplanation matched }])
        acc, GoodCondition c := by
    intro l
    induction l with
    | nil => intro _ acc hacc c hc; exact hacc c hc
    | cons e rest ih =>
      intro hl acc hacc c hc
      rw [List.foldl_cons] at hc
      refine ih (fun x hx => hl x (List.mem_cons_of_mem _ hx)) _ ?_ c hc
      intro c' hc'
      rcases hcl : clampDisplayScore e.2 with _ | clamped
      · rw [hcl] at hc'
        exact hacc c' hc'
      · rw [hcl] at hc'
        rcases hfd : diseases.find? (fun d => d.name == e.1) with _ | disease
        · rw [hfd] at hc'
          exact hacc c' hc'
        · rw [hfd] at hc'
          simp only [] at hc'
          rcases List.mem_append.1 hc' with h | h
          · exact hacc c' h
          · have hce := hl e (List.mem_cons_self _ _)
            obtain ⟨q, s⟩ := clamped
            have := clampDisplayScore_props hce.1 hce.2 hcl
            simp at h
            subst h
            exact this
  intro l hl
  exact key l hl [] (by intro c hc; simp at hc)

theorem mem_insertCondDesc {x c : ConditionResult} :
    ∀ {l : List ConditionResult}, c ∈ insertCondDesc x l → c = x ∨ c ∈ l := by
  intro l
  induction l with
  | nil => intro h; simp [insertCondDesc] at h; exact Or.inl h
  | cons y ys ih =>
    intro h
    unfold insertCondDesc at h
    split at h
    · rcases List.mem_cons.1 h with h | h
      · exact Or.inr (List.mem_cons.2 (Or.inl h))
      · rcases ih h with h | h
        · exact Or.inl h
        · exact Or.inr (List.mem_cons.2 (Or.inr h))
    · rcases List.mem_cons.1 h with h | h
      · exact Or.inl h
      · exact Or.inr h

theorem mem_sortCondDesc {c : ConditionResult} :
    ∀ {l : List ConditionResult}, c ∈ sortCondDesc l → c ∈ l := by
  intro l
  induction l with
  | nil => intro h; simp [sortCondDesc] at h
  | cons y ys ih =>
    intro h
    have : sortCondDesc (y :: ys) = insertCondDesc y (sortCondDesc ys) := rfl
    rw [this] at h
    rcases mem_insertCondDesc h with h | h
    · subst h; exact List.mem_cons_self _ _
    · exact List.mem_cons_of_mem _ (ih h)

theorem getDisplayConditions_sub {l : List ConditionResult} :
    ∀ c ∈ (getDisplayConditions l).conditions, c ∈ l := by
  unfold getDisplayConditions
  split_ifs <;> intro c hc
  · simp at hc
  · exact List.take_subset _ _ hc
  · exact List.take_subset _ _ hc
  · exact List.take_subset _ _ hc

/-- All output conditions of the client pipeline satisfy the display
guarantee (likelihood within [0.05, 1], sub-10% shown as the fixed
low-likelihood string, the rest as a percentage). -/
theorem scoreSymptoms_conditions_good {weights : List (String × Medical.SymptomWeight)}
    {diseases : List Medical.DiseaseData} {symptoms answers : List String}
    (hW : WeightsNonneg weights) :
    ∀ c ∈ (scoreSymptoms weights diseases symptoms answers).conditions, GoodCondition c := by
  intro c hc
  have h1 : c ∈ sortCondDesc (buildClientConditions weights diseases symptoms
      (normalizeScores (calculateDiseaseScores weights diseases symptoms answers))) :=
    getDisplayConditions_sub c hc
  have h2 := mem_sortCondDesc h1
  exact buildClientConditions_good _
    (normalizeScores_bounds (clientCalc_values_nonneg hW)) c h2

end ISP.Scoring

namespace ISP.Scoring

/-- Every entry of the client score map comes from a disease that
reached the 15% matched-symptom ratio or is a priority condition. -/
theorem clientCalc_keys {weights : List (String × Medical.SymptomWeight)}
    {diseases : List Medical.DiseaseData} {symptoms answers : List String} :
    ∀ e ∈ calculateDiseaseScores weights diseases symptoms answers,
      ∃ d, d ∈ diseases ∧ e.1 = d.name ∧
        (0.15 ≤ symptomMatchRatio weights d symptoms ∨
          d.name ∈ applyConditionFiltering symptoms) := by
  have key : ∀ (priority : List String) (ds : List Medical.DiseaseData),
      (∀ d ∈ ds, d ∈ diseases) → ∀ (acc : List (String × ℚ)),
      (∀ e ∈ acc, ∃ d, d ∈ diseases ∧ e.1 = d.name ∧
        (0.15 ≤ symptomMatchRatio weights d symptoms ∨ d.name ∈ priority)) →
      ∀ e ∈ ds.foldl
        (fun diseaseScores disease =>
          let rawScore := (rawScoreAndMatches weights disease symptoms).1
          if symptomMatchRatio weights disease symptoms < 0.15 &&
             !priority.contains disease.name then
            diseaseScores
          else
            let rawScore := if priority.contains disease.name then rawScore * 1.3 else rawScore
            ISP.Advanced.mapSet diseaseScores disease.name rawScore)
        acc,
      ∃ d, d ∈ diseases ∧ e.1 = d.name ∧
        (0.15 ≤ symptomMatchRatio weights d symptoms ∨ d.name ∈ priority) := by
    intro priority ds
    induction ds with
    | nil => intro _ acc hacc e he; exact hacc e he
    | cons d rest ih =>
      intro hds acc hacc e he
      rw [List.foldl_cons] at he
      refine ih (fun x hx => hds x (List.mem_cons_of_mem _ hx)) _ ?_ e he
      intro e' he'
      simp only [] at he'
      split at he'
      · exact hacc e' he'
      · rcases ISP.mapSet_mem he' with h | h
        · exact hacc e' h
        · subst h
          refine ⟨d, hds d (List.mem_cons_self _ _), rfl, ?_⟩
          rename_i hcond
          rw [Bool.and_eq_true, not_and] at hcond
          by_cases hp : priority.contains d.name = true
          · right; exact List.mem_of_elem_eq_true hp
          · left
            rw [Bool.not_eq_true] at hp
            by_cases hlt : symptomMatchRatio weights d symptoms < 0.15
            · exact absurd (by rw [hp]; rfl) (hcond (by simpa using hlt))
            · exact le_of_not_lt hlt
  intro e he
  have := key (applyConditionFiltering symptoms) diseases (fun d hd => hd) []
    (by intro e' he'; simp at he') e he
  exact this

end ISP.Scoring

namespace ISP.Advanced

/-- Every entry of the advanced multi-layer score map passed the
unconditional 30% matched-symptom ratio filter. -/
theorem advCalc_keys {symptoms : List String} {tc : ISP.TimeCourseLogic.TimeCourseData}
    {rfm : ISP.RedFlags.RedFlagMultipliers} {pats : List ISP.Patterns.PatternMatch}
    {prof : Option Profile} {si : List ISP.MultiSystem.SystemInvolvement} :
    ∀ e ∈ calculateDiseaseScores symptoms tc rfm pats prof si,
      0.3 ≤ matchRatio e.1 symptoms := by
  have key : ∀ (ds : List Medical.DiseaseData) (acc : List (String × ℚ)),
      (∀ e ∈ acc, 0.3 ≤ matchRatio e.1 symptoms) →
      ∀ e ∈ ds.foldl
        (fun diseaseScores disease =>
          if matchRatio disease.name symptoms < 0.3 then diseaseScores
          else
            mapSet diseaseScores disease.name
              (diseaseTotalScore disease symptoms tc rfm pats prof si))
        acc,
      0.3 ≤ matchRatio e.1 symptoms := by
    intro ds
    induction ds with
    | nil => intro acc hacc e he; exact hacc e he
    | cons d rest ih =>
      intro acc hacc e he
      rw [List.foldl_cons] at he
      refine ih _ ?_ e he
      intro e' he'
      split at he'
      · exact hacc e' he'
      · rcases ISP.mapSet_mem he' with h | h
        · exact hacc e' h
        · subst h
          rename_i hcond
          exact le_of_not_lt hcond
  intro e he
  exact key Medical.DISEASE_DATABASE [] (by intro e' he'; simp at he') e he

end ISP.Advanced

namespace ISP.TimeInference

/-- The interpretation set by the deterministic-inference block is
either still empty or one of the five fixed rule templates. -/
theorem inferenceStep_interp (text symptomsLower : String) (duration : Option Nat)
    (pattern : String) :
    (inferenceStep text symptomsLower duration pattern).2.2.2 = "" ∨
      (inferenceStep text symptomsLower duration pattern).2.2.2 ∈ ISP.ruleInterps := by
  unfold inferenceStep
  split_ifs <;> simp [ISP.ruleInterps]

/-- Whatever the duration, pattern and pre-set interpretation, the
built interpretation is non-empty and free of the unavailability
phrases. -/
theorem buildInterpretation_of_ne (duration : Option Nat) (pattern : String) {interp : String}
    (h : (interp == "") = false) :
    buildInterpretation duration pattern interp = interp := by
  unfold buildInterpretation
  simp [h]

theorem buildInterpretation_ok (duration : Option Nat) (pattern : String) {interp : String}
    (hi : interp = "" ∨ interp ∈ ISP.ruleInterps) :
    ISP.InterpOK (buildInterpretation duration pattern interp) := by
  rcases hi with hi | hi
  · subst hi
    unfold buildInterpretation
    split_ifs <;> exact ⟨by decide, by decide, by decide⟩
  · fin_cases hi <;>
      · rw [buildInterpretation_of_ne _ _ (by decide)]
        exact ⟨by decide, by decide, by decide⟩

/-- `inferTimeCourse` always returns a usable interpretation. -/
theorem inferTimeCourse_interpOK (symptoms answers : List String) :
    ISP.InterpOK (inferTimeCourse symptoms answers).interpretation :=
  buildInterpretation_ok _ _ (inferenceStep_interp _ _ _ _)

end ISP.TimeInference

namespace ISP

/-! ### Claim theorems -/

/-- C1 (amended): in the simple client-side pipeline `scoreSymptoms`,
no returned condition ever has likelihood exactly 0 — conditions with a
zero normalized score are dropped and the rest are floored at 0.05.
(The advanced pipeline does not share this invariant; see the
counterexample.) -/
theorem claim_C1_no_zero_likelihood (weights : List (String × Medical.SymptomWeight))
    (diseases : List Medical.DiseaseData) (symptoms answers : List String)
    (hW : Scoring.WeightsNonneg weights) :
    ∀ c ∈ (Scoring.scoreSymptoms weights diseases symptoms answers).conditions,
      c.likelihood ≠ 0 := by
  intro c hc
  have h := Scoring.scoreSymptoms_conditions_good hW c hc
  exact ne_of_gt (lt_of_lt_of_le (by norm_num) h.1)

set_option maxRecDepth 10000 in
/-- C1 witness: the top condition for a concrete one-symptom run over
the modelled tables has non-zero likelihood. -/
theorem claim_C1_no_zero_likelihood_witness : clientWitnessCondition.likelihood ≠ 0 :=
  claim_C1_no_zero_likelihood Scoring.clientSymptomWeights Scoring.clientDiseases
    ["fatigue"] [] (by unfold Scoring.WeightsNonneg; decide) clientWitnessCondition (by decide)

/-- C1 counterexample: the advanced scoring/display stage surfaces
conditions with likelihood exactly 0 displayed as "0%" — priority
conditions re-inserted at score 0 on a seven-symptom input on which no
disease passes the 30% ratio filter. -/
theorem claim_C1_zero_likelihood_cx :
    ((Advanced.advancedConditions sevenSymptomInput "" none).getD []).map condSummary =
      [("Multiple Sclerosis (MS)", 0, "0%"), ("Autonomic Dysfunction", 0, "0%"),
       ("Guillain-Barré Syndrome (GBS)", 0, "0%")] := by decide

/-- C2: every condition returned by the client pipeline has likelihood
in [0.05, 1]; its display text contains "%" when the likelihood is at
least 0.10 and equals the fixed low-likelihood string otherwise. -/
theorem claim_C2_likelihood_bounds_and_display
    (weights : List (String × Medical.SymptomWeight))
    (diseases : List Medical.DiseaseData) (symptoms answers : List String)
    (hW : Scoring.WeightsNonneg weights) :
    ∀ c ∈ (Scoring.scoreSymptoms weights diseases symptoms answers).conditions,
      1/20 ≤ c.likelihood ∧ c.likelihood ≤ 1 ∧
        (1/10 ≤ c.likelihood → jsIncludes c.displayLikelihood "%" = true) ∧
        (c.likelihood < 1/10 → c.displayLikelihood = "Low likelihood (<10%)") :=
  fun c hc => Scoring.scoreSymptoms_conditions_good hW c hc

set_option maxRecDepth 10000 in
/-- C2 witness: the guarantee instantiated on a concrete run. -/
theorem claim_C2_likelihood_bounds_witness :
    1/20 ≤ clientWitnessCondition.likelihood ∧ clientWitnessCondition.likelihood ≤ 1 ∧
      (1/10 ≤ clientWitnessCondition.likelihood →
        jsIncludes clientWitnessCondition.displayLikelihood "%" = true) ∧
      (clientWitnessCondition.likelihood < 1/10 →
        clientWitnessCondition.displayLikelihood = "Low likelihood (<10%)") :=
  claim_C2_likelihood_bounds_and_display Scoring.clientSymptomWeights Scoring.clientDiseases
    ["fatigue"] [] (by unfold Scoring.WeightsNonneg; decide) clientWitnessCondition (by decide)

/-- C3: the display policy returns at most 3 conditions when the top
score is below 0.40 and at most 5 in any case; when the list has at
least two entries and the two leading scores are within 0.10 of each
other, exactly the top 3 (at most) are returned with the close-call
label. -/
theorem claim_C3_dynamic_topN (conditions : List Scoring.ConditionResult) :
    (Scoring.topScore conditions < 0.40 →
      (Scoring.getDisplayConditions conditions).conditions.length ≤ 3) ∧
    (Scoring.getDisplayConditions conditions).conditions.length ≤ 5 ∧
    (2 ≤ conditions.length →
      Scoring.topScore conditions - Scoring.secondScore conditions < 0.10 →
      (Scoring.getDisplayConditions conditions).conditions = conditions.take 3 ∧
      (Scoring.getDisplayConditions conditions).label =
        some "Close call — consider more information") := by
  unfold Scoring.getDisplayConditions
  split_ifs with h0 hcc htop
  · refine ⟨fun _ => by simp, by simp, fun h2 _ => absurd h0 (by omega)⟩
  · refine ⟨fun _ => ?_, ?_, fun _ _ => ⟨rfl, rfl⟩⟩
    · simpa using (List.length_take_le 3 conditions)
    · exact le_trans (List.length_take_le 3 conditions) (by norm_num)
  · rw [Bool.and_eq_true, not_and] at hcc
    refine ⟨fun _ => by simpa using (List.length_take_le 3 conditions),
      le_trans (List.length_take_le 3 conditions) (by norm_num),
      fun h2 hdiff => ?_⟩
    exfalso
    exact absurd (by simpa using (by omega : conditions.length > 1))
      (hcc (by simpa using hdiff))
  · rw [Bool.and_eq_true, not_and] at hcc
    refine ⟨fun h => absurd h htop, by simpa using (List.length_take_le 5 conditions),
      fun h2 hdiff => ?_⟩
    exfalso
    exact absurd (by simpa using (by omega : conditions.length > 1))
      (hcc (by simpa using hdiff))

/-- C3 witness: the close-call branch on a concrete four-entry list
with a 0.05 gap between the leading scores. -/
theorem claim_C3_dynamic_topN_witness :
    (Scoring.getDisplayConditions closeCallList).conditions = closeCallList.take 3 ∧
    (Scoring.getDisplayConditions closeCallList).label =
      some "Close call — consider more information" :=
  (claim_C3_dynamic_topN closeCallList).2.2 (by decide) (by decide)

/-- C4 (amended): the time-course inferencer always returns a non-empty
interpretation free of the "not available"/"unavailable" phrases, and
an empty input falls through to the default chronic/30-day result;
the temporal pattern, however, can remain "unknown" (see the
counterexample). -/
theorem claim_C4_interpretation_always_usable :
    (∀ symptoms answers : List String,
      InterpOK (TimeInference.inferTimeCourse symptoms answers).interpretation) ∧
    TimeInference.inferTimeCourse [] [] =
      { duration_days := some 30, pattern := "chronic",
        interpretation := TimeInference.interpDefault, derived := true } :=
  ⟨fun s a => TimeInference.inferTimeCourse_interpOK s a, by decide⟩

/-- C4 witness: the interpretation guarantee on a concrete input. -/
theorem claim_C4_interpretation_witness :
    InterpOK (TimeInference.inferTimeCourse ["fatigue"] []).interpretation :=
  claim_C4_interpretation_always_usable.1 ["fatigue"] []

/-- C4 counterexample: an explicit duration of 21 days with no pattern
cue leaves the returned pattern at "unknown". -/
theorem claim_C4_unknown_pattern_cx :
    (TimeInference.inferTimeCourse [] ["for 3 weeks"]).pattern = "unknown" := by decide

/-- C6 (amended): answers containing "for 3 weeks" yield
`duration_days = 21` by explicit extraction; `derived` is false only
when an explicit pattern keyword also appears — with a pattern-free
text the inference step still runs and marks `derived = true`. -/
theorem claim_C6_scenario_D :
    (TimeInference.inferTimeCourse [] ["it has been chronic for 3 weeks"]).duration_days =
      some 21 ∧
    (TimeInference.inferTimeCourse [] ["it has been chronic for 3 weeks"]).derived = false ∧
    (TimeInference.inferTimeCourse ["fatigue"] ["for 3 weeks"]).duration_days = some 21 ∧
    (TimeInference.inferTimeCourse ["fatigue"] ["for 3 weeks"]).derived = true := by decide

/-- C6 counterexample: on symptoms ["fatigue"] with answer
"for 3 weeks", the result has duration 21 but `derived = true`,
contradicting the claimed `derived = false`. -/
theorem claim_C6_derived_cx :
    (TimeInference.inferTimeCourse ["fatigue"] ["for 3 weeks"]).derived = true ∧
    (TimeInference.inferTimeCourse ["fatigue"] ["for 3 weeks"]).duration_days = some 21 := by
  decide

/-- C9: the client scoring pipeline is deterministic — equal inputs
produce equal outputs (conditions, order, likelihoods, display strings,
red flags and label). -/
theorem claim_C9_determinism (weights : List (String × Medical.SymptomWeight))
    (diseases : List Medical.DiseaseData) (symptoms1 answers1 symptoms2 answers2 : List String)
    (hs : symptoms1 = symptoms2) (ha : answers1 = answers2) :
    Scoring.scoreSymptoms weights diseases symptoms1 answers1 =
      Scoring.scoreSymptoms weights diseases symptoms2 answers2 := by
  subst hs
  subst ha
  rfl

/-- C9 witness: determinism instantiated on a concrete run. -/
theorem claim_C9_determinism_witness :
    Scoring.scoreSymptoms Scoring.clientSymptomWeights Scoring.clientDiseases ["fatigue"] [] =
      Scoring.scoreSymptoms Scoring.clientSymptomWeights Scoring.clientDiseases ["fatigue"] [] :=
  claim_C9_determinism _ _ _ _ _ _ rfl rfl

end ISP

namespace ISP

/-- C5 (amended): in the simple client scorer a condition enters the
scored map only if its matched-symptom ratio is at least 0.15 OR it is
a priority condition from the filtering rules (the priority bypass
keeps sub-threshold conditions, contrary to the claim); in the advanced
scorer the base pass strictly enforces the 0.30 ratio — but the later
priority-boost stage re-inserts sub-threshold conditions (see the
counterexample). -/
theorem claim_C5_match_ratio_threshold :
    (∀ (weights : List (String × Medical.SymptomWeight))
       (diseases : List Medical.DiseaseData) (symptoms answers : List String),
      ∀ e ∈ Scoring.calculateDiseaseScores weights diseases symptoms answers,
        ∃ d, d ∈ diseases ∧ e.1 = d.name ∧
          (0.15 ≤ Scoring.symptomMatchRatio weights d symptoms ∨
            d.name ∈ Scoring.applyConditionFiltering symptoms)) ∧
    (∀ (symptoms : List String) (tc : TimeCourseLogic.TimeCourseData)
       (rfm : RedFlags.RedFlagMultipliers) (pats : List Patterns.PatternMatch)
       (prof : Option Profile) (si : List MultiSystem.SystemInvolvement),
      ∀ e ∈ Advanced.calculateDiseaseScores symptoms tc rfm pats prof si,
        0.3 ≤ Advanced.matchRatio e.1 symptoms) :=
  ⟨fun _ _ _ _ => Scoring.clientCalc_keys, fun _ _ _ _ _ _ => Advanced.advCalc_keys⟩

/-- C5 witness: the head entry of a concrete advanced base-scorer run
satisfies the 0.30 ratio bound. -/
theorem claim_C5_match_ratio_witness :
    0.3 ≤ Advanced.matchRatio advWitnessEntry.1 advWitnessSymptoms :=
  claim_C5_match_ratio_threshold.2 advWitnessSymptoms neutralTimeCourse neutralMultipliers
    [] none [] advWitnessEntry (by decide)

/-- C5 counterexample: on the seven-symptom input, "Autonomic
Dysfunction" fails the 0.30 ratio, yet the boost stage inserts it at
score 0 and it appears in the final output — sub-threshold conditions
are not always excluded before boosting. -/
theorem claim_C5_threshold_cx :
    (Advanced.boostedScores sevenSymptomInput "" none).lookup "Autonomic Dysfunction" =
      some 0 ∧
    Advanced.matchRatio "Autonomic Dysfunction" sevenSymptoms < 0.3 ∧
    hasCondition "Autonomic Dysfunction"
      ((Advanced.advancedConditions sevenSymptomInput "" none).getD []) = true := by decide

/-- C7: the table-lookup rule — exact match on the lowercased trimmed
token first, else the first key in declaration order that is a
substring of the token or vice versa — agrees with the source lookups
for both symptom weights and disease relevance, and a token matching no
key yields the default 0.5 × 0.3 weight product. -/
theorem claim_C7_lookup_rule :
    (∀ s : String, Medical.getSymptomScore s = Medical.getSymptomScoreSpec s) ∧
    (∀ dn s : String,
      Medical.getDiseaseRelevanceFactor dn s = Medical.getDiseaseRelevanceFactorSpec dn s) ∧
    (∀ s : String,
      Medical.specLookup Medical.SYMPTOM_WEIGHTS (jsTrim (jsToLower s)) = none →
        Medical.getSymptomScore s = 0.5 * 0.3) := by
  have hwf : ∀ d ∈ Medical.DISEASE_DATABASE, ∀ e ∈ d.symptom_relevance_map, e.2 ≠ 0 := by
    decide
  refine ⟨?_, ?_, ?_⟩
  · intro s
    simp only [Medical.getSymptomScore, Medical.getSymptomScoreSpec, Medical.specLookup]
    cases h1 : Medical.SYMPTOM_WEIGHTS.lookup (jsTrim (jsToLower s)) with
    | some w => simp [h1]
    | none =>
      cases h2 : Medical.SYMPTOM_WEIGHTS.find?
          (fun e => jsIncludes (jsTrim (jsToLower s)) e.1 ||
            jsIncludes e.1 (jsTrim (jsToLower s))) with
      | some e => simp [h1, h2]
      | none => simp [h1, h2]
  · intro dn s
    simp only [Medical.getDiseaseRelevanceFactor, Medical.getDiseaseRelevanceFactorSpec,
      Medical.specLookup, Medical.relevancePartial]
    cases hd : Medical.DISEASE_DATABASE.find? (fun d => d.name == dn) with
    | none => rfl
    | some disease =>
      have hdm : disease ∈ Medical.DISEASE_DATABASE := List.mem_of_find?_eq_some hd
      cases h1 : disease.symptom_relevance_map.lookup (jsTrim (jsToLower s)) with
      | some v =>
        have hv : v ≠ 0 := hwf disease hdm _ (ISP.lookup_some_mem h1)
        simp [h1, hv]
      | none =>
        cases h2 : disease.symptom_relevance_map.find?
            (fun e => jsIncludes (jsTrim (jsToLower s)) e.1 ||
              jsIncludes e.1 (jsTrim (jsToLower s))) with
        | some e => simp [h1, h2]
        | none => simp [h1, h2]
  · intro s h
    simp only [Medical.specLookup] at h
    simp only [Medical.getSymptomScore]
    cases h1 : Medical.SYMPTOM_WEIGHTS.lookup (jsTrim (jsToLower s)) with
    | some w => rw [h1] at h; simp at h
    | none =>
      rw [h1] at h
      cases h2 : Medical.SYMPTOM_WEIGHTS.find?
          (fun e => jsIncludes (jsTrim (jsToLower s)) e.1 ||
            jsIncludes e.1 (jsTrim (jsToLower s))) with
      | some e => rw [h2] at h; simp at h
      | none => simp [h2]

/-- C7 witness: a token matching no key at all scores 0.5 × 0.3. -/
theorem claim_C7_lookup_rule_witness :
    Medical.getSymptomScore "xyzzy" = 0.5 * 0.3 :=
  claim_C7_lookup_rule.2.2 "xyzzy" (by decide)

/-- C8: each red-flag category multiplier starts at 1.0 and each firing
rule adds its fixed increment (weight loss ≥ 2 kg adds 1.5 to
malignancy; night sweats adds 1.4 to malignancy and chronic infection;
neuro+visual adds 1.6 to MS; orthostatic adds 1.4/1.3 to
dysautonomia/adrenal, plus 0.3/0.2 when neuro symptoms co-occur); when
applied to a condition the applicable category multipliers combine by
multiplication. -/
theorem claim_C8_red_flag_multipliers (symptoms : String) (answers : List String)
    (profile : Option Profile) :
    ((RedFlags.detectRedFlags symptoms answers profile).2 =
      { malignancy_multiplier :=
          1 + (if RedFlags.weightLossFired (RedFlags.redFlagText symptoms answers)
                then (1.5 : ℚ) else 0) +
            (if RedFlags.nightSweatsFired (RedFlags.redFlagText symptoms answers)
                then (1.4 : ℚ) else 0),
        chronic_infection_multiplier :=
          1 + (if RedFlags.nightSweatsFired (RedFlags.redFlagText symptoms answers)
                then (1.4 : ℚ) else 0),
        MS_multiplier :=
          1 + (if RedFlags.neuroVisualFired (RedFlags.redFlagText symptoms answers)
                then (1.6 : ℚ) else 0),
        dysautonomia_multiplier :=
          1 + (if RedFlags.orthostaticFired (RedFlags.redFlagText symptoms answers)
                then (1.4 : ℚ) else 0) +
            (if RedFlags.orthostaticFired (RedFlags.redFlagText symptoms answers) &&
                RedFlags.hasNeuroSymptoms (RedFlags.redFlagText symptoms answers)
                then (0.3 : ℚ) else 0),
        adrenal_insufficiency_multiplier :=
          1 + (if RedFlags.orthostaticFired (RedFlags.redFlagText symptoms answers)
                then (1.3 : ℚ) else 0) +
            (if RedFlags.orthostaticFired (RedFlags.redFlagText symptoms answers) &&
                RedFlags.hasNeuroSymptoms (RedFlags.redFlagText symptoms answers)
                then (0.2 : ℚ) else 0),
        autoimmune_multiplier := 1 }) ∧
    (∀ (name : String) (m : RedFlags.RedFlagMultipliers),
      RedFlags.applyRedFlagMultipliers name m =
        (if RedFlags.isMalignancyName name then m.malignancy_multiplier else 1) *
        (if RedFlags.isChronicInfectionName name then m.chronic_infection_multiplier else 1) *
        (if RedFlags.isMSName name then m.MS_multiplier else 1) *
        (if RedFlags.isDysautonomiaName name then m.dysautonomia_multiplier else 1) *
        (if RedFlags.isAdrenalName name then m.adrenal_insufficiency_multiplier else 1) *
        (if RedFlags.isAutoimmuneName name then m.autoimmune_multiplier else 1)) := by
  constructor
  · cases hwl : RedFlags.weightLossFired (RedFlags.redFlagText symptoms answers) <;>
    cases hns : RedFlags.nightSweatsFired (RedFlags.redFlagText symptoms answers) <;>
    cases hne : RedFlags.hasNeuroSymptoms (RedFlags.redFlagText symptoms answers) <;>
    cases hvis : RedFlags.hasVisualChanges (RedFlags.redFlagText symptoms answers) <;>
    cases hor : RedFlags.orthostaticFired (RedFlags.redFlagText symptoms answers) <;>
    rw [RedFlags.weightLossFired] at hwl <;>
    simp [RedFlags.detectRedFlags, RedFlags.weightLossFired, RedFlags.neuroVisualFired,
      hwl, hns, hne, hvis, hor] <;>
    norm_num
  · intro name m
    cases h1 : RedFlags.isMalignancyName name <;>
    cases h2 : RedFlags.isChronicInfectionName name <;>
    cases h3 : RedFlags.isMSName name <;>
    cases h4 : RedFlags.isDysautonomiaName name <;>
    cases h5 : RedFlags.isAdrenalName name <;>
    cases h6 : RedFlags.isAutoimmuneName name <;>
    simp [RedFlags.applyRedFlagMultipliers, h1, h2, h3, h4, h5, h6] <;>
    norm_num

/-- C10: the advanced display filter is the identity up to the top-10
cap (the indexOf test on a fresh pair is always −1 < 3, so the
predicate always holds); consequently on the seven-symptom input, where
the base scorer returns nothing, priority conditions are inserted at
score 0 and "Multiple Sclerosis (MS)" is surfaced with likelihood 0
displayed as "0%". -/
theorem claim_C10_display_filter_vacuous :
    (∀ sortedAll : List (String × ℚ), Advanced.displayFilter sortedAll = sortedAll.take 10) ∧
    Advanced.calculateDiseaseScores sevenSymptoms
      (TimeCourseLogic.extractTimeCourseData sevenSymptomInput [""])
      (RedFlags.detectRedFlags sevenSymptomInput [""] none).2
      (Patterns.detectPatterns sevenSymptomInput [""]) none
      (MultiSystem.analyzeSystemInvolvement sevenSymptoms) = [] ∧
    (Advanced.boostedScores sevenSymptomInput "" none).lookup "Multiple Sclerosis (MS)" =
      some 0 ∧
    (((Advanced.advancedConditions sevenSymptomInput "" none).getD []).map
      condSummary).head? = some ("Multiple Sclerosis (MS)", 0, "0%") := by
  refine ⟨?_, by decide, by decide, by decide⟩
  intro sortedAll
  simp [Advanced.displayFilter, Advanced.jsIndexOfFreshPair]

end ISP
